import Mathlib

/-
Verification development for the `climate_group_helper` Home Assistant custom
component.  The Python sources under
`custom_components/climate_group_helper/` are shallowly embedded below:

  * attribute dictionaries (`dict[str, Any]`) become association lists over
    `String` keys with a `Value` payload (strings, rationals for floats,
    entity-id lists, and an explicit `null` for Python `None` stored inside a
    dict);
  * the frozen dataclasses `TargetState` / `FilterState` / `ChangeState`
    become Lean structures;
  * `hass.states` becomes a function `String → Option MemberState`;
  * float arithmetic is modelled with `Rat` (the tolerance constant 0.1 is
    exactly representable, and every comparison the code performs is on
    decimal literals, so `Rat` is a faithful model).

Each embedded definition cites the Python symbol it is translated from.
-/

namespace ClimateGroupHelper

/-- Attribute values as they occur in the component's dictionaries:
mode strings, float setpoints (as `Rat`), entity-id lists (the
`entity_id` key of service data), and Python `None` stored inside a dict. -/
inductive Value where
  | s : String → Value
  | n : Rat → Value
  | ids : List String → Value
  | null : Value
deriving DecidableEq

/-- A Python `dict[str, Any]` with insertion order, as an association list.
Real dicts have unique keys; every dict built below preserves that. -/
abbrev Data := List (String × Value)

/-- `d.get(k)` distinguished from a stored `None`: `none` means the key is
absent, `some .null` means the key maps to Python `None`. -/
def dataGet (d : Data) (k : String) : Option Value :=
  (d.find? (fun p => p.1 == k)).map (fun p => p.2)

/-- `k in d` (dict key membership). -/
def dataHasKey (d : Data) (k : String) : Bool :=
  (dataGet d k).isSome

/-- Python `d.get(k)` whose default is `None`. -/
def pyDictGet (d : Data) (k : String) : Value :=
  (dataGet d k).getD Value.null

/-- `{**d, k: v}` / `d[k] = v`: replace the value in place when the key is
present, append otherwise (Python dicts keep the original key position). -/
def dataSetKey (d : Data) (k : String) (v : Value) : Data :=
  if d.any (fun p => p.1 == k) then
    d.map (fun p => if p.1 == k then (k, v) else p)
  else d ++ [(k, v)]

/-- Python substring test `sub in s` on character lists: `pyCharsLe sub s`
is `True` iff `sub` starts `s`. -/
def charListStarts : List Char → List Char → Bool
  | [], _ => true
  | _ :: _, [] => false
  | a :: as, b :: bs => a == b && charListStarts as bs

/-- `sub in s` for Python strings (substring containment). -/
def charListContains (sub : List Char) : List Char → Bool
  | [] => sub.isEmpty
  | c :: rest => charListStarts sub (c :: rest) || charListContains sub rest

/-- Python `sub in s` for strings. -/
def pyStrIn (sub s : String) : Bool :=
  charListContains sub.data s.data

/-- `const.FLOAT_TOLERANCE = 0.1`. -/
def FLOAT_TOLERANCE : Rat := 1 / 10

/-- `ClimateGroup.within_tolerance` (climate.py) and the identical local
helper in `ChangeState.from_event` (state.py): `abs(float(a) - float(b)) <
tolerance`, returning `False` when either value is not numeric
(`ValueError`/`TypeError` caught). -/
def within_tolerance (v1 v2 : Value) : Bool :=
  match v1, v2 with
  | .n a, .n b => |a - b| < FLOAT_TOLERANCE
  | _, _ => false

/-- `within_tolerance(current_value, target)` where `current_value` may be
Python `None` (absent attribute): `float(None)` raises, caught as `False`. -/
def withinTolOpt : Option Value → Value → Bool
  | none, _ => false
  | some .null, _ => false
  | some c, t => within_tolerance c t

/-- `state.TargetState`: frozen dataclass; `none` models a Python `None`
field ("no opinion"). -/
structure TargetState where
  hvac_mode : Option String := none
  temperature : Option Rat := none
  target_temp_low : Option Rat := none
  target_temp_high : Option Rat := none
  humidity : Option Rat := none
  preset_mode : Option String := none
  fan_mode : Option String := none
  swing_mode : Option String := none
  swing_horizontal_mode : Option String := none
  last_source : Option String := none
  last_entity : Option String := none
  last_timestamp : Option Rat := none
deriving DecidableEq

/-- The dataclass field order of `TargetState` (= `TargetState.__annotations__`
iteration order in `ChangeState.from_event` and `asdict` order in `to_dict`). -/
def targetFieldKeys : List String :=
  ["hvac_mode", "temperature", "target_temp_low", "target_temp_high",
   "humidity", "preset_mode", "fan_mode", "swing_mode",
   "swing_horizontal_mode", "last_source", "last_entity", "last_timestamp"]

/-- `getattr(target_state, key, None)`. -/
def TargetState.get (ts : TargetState) (k : String) : Option Value :=
  match k with
  | "hvac_mode" => ts.hvac_mode.map Value.s
  | "temperature" => ts.temperature.map Value.n
  | "target_temp_low" => ts.target_temp_low.map Value.n
  | "target_temp_high" => ts.target_temp_high.map Value.n
  | "humidity" => ts.humidity.map Value.n
  | "preset_mode" => ts.preset_mode.map Value.s
  | "fan_mode" => ts.fan_mode.map Value.s
  | "swing_mode" => ts.swing_mode.map Value.s
  | "swing_horizontal_mode" => ts.swing_horizontal_mode.map Value.s
  | "last_source" => ts.last_source.map Value.s
  | "last_entity" => ts.last_entity.map Value.s
  | "last_timestamp" => ts.last_timestamp.map Value.n
  | _ => none

/-- `TargetState.to_dict()` (no attribute filter): all fields in dataclass
order with `None` values excluded. -/
def TargetState.to_dict (ts : TargetState) : Data :=
  targetFieldKeys.filterMap (fun k => (ts.get k).map (fun v => (k, v)))

/-- Setting one field of the frozen dataclass via `dataclasses.replace`;
unknown keys are dropped (`TargetState.update` filters them out) and a
`null` value stores Python `None` into the field.  Values are stored with
the type the component actually writes (strings for modes, floats for
setpoints). -/
def TargetState.setField (ts : TargetState) (k : String) (v : Value) : TargetState :=
  match k, v with
  | "hvac_mode", .s m => { ts with hvac_mode := some m }
  | "hvac_mode", .null => { ts with hvac_mode := none }
  | "temperature", .n x => { ts with temperature := some x }
  | "temperature", .null => { ts with temperature := none }
  | "target_temp_low", .n x => { ts with target_temp_low := some x }
  | "target_temp_low", .null => { ts with target_temp_low := none }
  | "target_temp_high", .n x => { ts with target_temp_high := some x }
  | "target_temp_high", .null => { ts with target_temp_high := none }
  | "humidity", .n x => { ts with humidity := some x }
  | "humidity", .null => { ts with humidity := none }
  | "preset_mode", .s m => { ts with preset_mode := some m }
  | "preset_mode", .null => { ts with preset_mode := none }
  | "fan_mode", .s m => { ts with fan_mode := some m }
  | "fan_mode", .null => { ts with fan_mode := none }
  | "swing_mode", .s m => { ts with swing_mode := some m }
  | "swing_mode", .null => { ts with swing_mode := none }
  | "swing_horizontal_mode", .s m => { ts with swing_horizontal_mode := some m }
  | "swing_horizontal_mode", .null => { ts with swing_horizontal_mode := none }
  | "last_source", .s m => { ts with last_source := some m }
  | "last_source", .null => { ts with last_source := none }
  | "last_entity", .s m => { ts with last_entity := some m }
  | "last_entity", .null => { ts with last_entity := none }
  | "last_timestamp", .n x => { ts with last_timestamp := some x }
  | "last_timestamp", .null => { ts with last_timestamp := none }
  | _, _ => ts

/-- `TargetState.update(**kwargs)`: structural replacement of the supplied
fields. -/
def TargetState.updateData (ts : TargetState) (kwargs : Data) : TargetState :=
  kwargs.foldl (fun t p => t.setField p.1 p.2) ts

/-- `state.FilterState`: boolean mask over the nine controllable attributes. -/
structure FilterState where
  hvac_mode : Bool := true
  temperature : Bool := true
  target_temp_low : Bool := true
  target_temp_high : Bool := true
  humidity : Bool := true
  fan_mode : Bool := true
  preset_mode : Bool := true
  swing_mode : Bool := true
  swing_horizontal_mode : Bool := true
deriving DecidableEq

/-- The nine controllable attribute keys (keys of `FilterState.to_dict()`,
which drops the inherited `last_*` metadata). -/
def filterFieldKeys : List String :=
  ["hvac_mode", "temperature", "target_temp_low", "target_temp_high",
   "humidity", "fan_mode", "preset_mode", "swing_mode", "swing_horizontal_mode"]

/-- Field lookup on `FilterState.to_dict()`: `none` for keys that are not
among the nine controllable attributes. -/
def FilterState.field (fs : FilterState) (k : String) : Option Bool :=
  match k with
  | "hvac_mode" => some fs.hvac_mode
  | "temperature" => some fs.temperature
  | "target_temp_low" => some fs.target_temp_low
  | "target_temp_high" => some fs.target_temp_high
  | "humidity" => some fs.humidity
  | "fan_mode" => some fs.fan_mode
  | "preset_mode" => some fs.preset_mode
  | "swing_mode" => some fs.swing_mode
  | "swing_horizontal_mode" => some fs.swing_horizontal_mode
  | _ => none

/-- `filter_attrs.get(attr, True)` in `_generate_calls_from_dict`. -/
def FilterState.allowD (fs : FilterState) (k : String) : Bool :=
  (fs.field k).getD true

/-- `self._filter_state.to_dict().get(key)` in `SyncModeHandler.resync`
(Mirror branch): missing key defaults to `None`, i.e. falsy. -/
def FilterState.allowMirror (fs : FilterState) (k : String) : Bool :=
  (fs.field k).getD false

/-- `FilterState.from_keys`: all `False` except the listed attributes. -/
def FilterState.from_keys (keys : List String) : FilterState :=
  { hvac_mode := "hvac_mode" ∈ keys
    temperature := "temperature" ∈ keys
    target_temp_low := "target_temp_low" ∈ keys
    target_temp_high := "target_temp_high" ∈ keys
    humidity := "humidity" ∈ keys
    fan_mode := "fan_mode" ∈ keys
    preset_mode := "preset_mode" ∈ keys
    swing_mode := "swing_mode" ∈ keys
    swing_horizontal_mode := "swing_horizontal_mode" ∈ keys }

/-- One member's Home Assistant `State` object: `state.state` plus the
attributes dict (which also holds the `*_modes` capability lists as
`Value.ids`). -/
structure MemberState where
  state : String
  attrs : Data
deriving DecidableEq

/-- `hass.states` plus the group's member list. -/
structure GroupEnv where
  climate_entity_ids : List String
  states : String → Option MemberState

/-- The configuration and group-level flags consulted by the embedded code. -/
structure GroupCfg where
  ignore_off_members : Bool := false
  min_temp_off : Bool := false
  attr_min_temp : Rat := 7
  blocking_mode : Bool := false
  group_entity_id : String := "climate.group"

/-- `const.ATTR_SERVICE_MAP`. -/
def ATTR_SERVICE_MAP : String → Option String
  | "hvac_mode" => some "set_hvac_mode"
  | "temperature" => some "set_temperature"
  | "target_temp_low" => some "set_temperature"
  | "target_temp_high" => some "set_temperature"
  | "humidity" => some "set_humidity"
  | "fan_mode" => some "set_fan_mode"
  | "preset_mode" => some "set_preset_mode"
  | "swing_mode" => some "set_swing_mode"
  | "swing_horizontal_mode" => some "set_swing_horizontal_mode"
  | _ => none

/-- `const.MODE_MODES_MAP`. -/
def MODE_MODES_MAP : String → Option String
  | "fan_mode" => some "fan_modes"
  | "hvac_mode" => some "hvac_modes"
  | "preset_mode" => some "preset_modes"
  | "swing_mode" => some "swing_modes"
  | "swing_horizontal_mode" => some "swing_horizontal_modes"
  | _ => none

/-- The setpoint attributes given float-tolerance comparison in
`_get_unsynced_entities`. -/
def isNumericAttr (attr : String) : Bool :=
  attr == "temperature" || attr == "target_temp_low" ||
  attr == "target_temp_high" || attr == "humidity"

/-! ## service_call.py: call generation -/

/-- `state.state if attr == ATTR_HVAC_MODE else state.attributes.get(attr)`.
`some .null` models an attribute that is present but stores Python `None`. -/
def currentValue (st : MemberState) (attr : String) : Option Value :=
  if attr == "hvac_mode" then some (Value.s st.state) else dataGet st.attrs attr

/-- The mode-support / attribute-support check at the top of the member loop
in `BaseServiceCallHandler._get_unsynced_entities`: for attributes in
`MODE_MODES_MAP`, the target value must be in the member's
`state.attributes.get(<modes>, [])`; otherwise the attribute key must be in
`state.attributes`.  (Capability lists are stored as `Value.ids`; the
component never stores a non-list under a `*_modes` key.) -/
def memberSupports (st : MemberState) (attr : String) (tv : Value) : Bool :=
  match MODE_MODES_MAP attr with
  | some modesKey =>
    match tv, dataGet st.attrs modesKey with
    | Value.s m, some (Value.ids l) => m ∈ l
    | _, _ => false
  | none => dataHasKey st.attrs attr

/-- `BaseServiceCallHandler._skip_off_members` (Partial Sync output filter):
skip an OFF member unless one of the guards applies; the final `any` is the
deadlock-prevention re-check over live member states. -/
def skipOffMembers (env : GroupEnv) (cfg : GroupCfg) (ts : TargetState)
    (st : MemberState) (tv : Value) : Bool :=
  if !cfg.ignore_off_members then false
  else if ts.hvac_mode == some "off" then false
  else if st.state != "off" then false
  else if tv == Value.s "off" then false
  else
    env.climate_entity_ids.any (fun mid =>
      match env.states mid with
      | some ms =>
        if ms.state == "unavailable" || ms.state == "unknown" then false
        else ms.state != "off"
      | none => false)

/-- "member already at target": the two skip conditions at the bottom of the
member loop in `_get_unsynced_entities` (float tolerance for numeric
attributes, then exact equality). -/
def memberAtTarget (st : MemberState) (attr : String) (tv : Value) : Bool :=
  (isNumericAttr attr && withinTolOpt (currentValue st attr) tv) ||
  (currentValue st attr == some tv)

/-- `BaseServiceCallHandler._get_unsynced_entities`. -/
def get_unsynced_entities (env : GroupEnv) (cfg : GroupCfg) (ts : TargetState)
    (attr : String) : List String :=
  match ts.get attr with
  | none => []
  | some tv =>
    env.climate_entity_ids.filter (fun eid =>
      match env.states eid with
      | none => false
      | some st =>
        memberSupports st attr tv &&
        !skipOffMembers env cfg ts st tv &&
        !(isNumericAttr attr && withinTolOpt (currentValue st attr) tv) &&
        !(currentValue st attr == some tv))

/-- `BaseServiceCallHandler._min_temp_when_off`: inject the group minimum
temperature when turning OFF and `min_temp_off` is configured. -/
def min_temp_when_off (cfg : GroupCfg) (data : Data) : Data :=
  if !cfg.min_temp_off then data
  else if pyDictGet data "hvac_mode" == Value.s "off" then
    dataSetKey data "temperature" (Value.n cfg.attr_min_temp)
  else data

/-- `BaseServiceCallHandler._block_wakeup_calls`: with target mode OFF, block
every attribute except the mode itself, and except the min-temp injection. -/
def block_wakeup_calls (cfg : GroupCfg) (data : Data) (attr : String) : Bool :=
  if pyDictGet data "hvac_mode" == Value.s "off" && attr != "hvac_mode" then
    if attr == "temperature" && cfg.min_temp_off then false else true
  else false

/-- One outbound service call (`{"service": ..., "kwargs": ..., "entity_ids": ...}`). -/
structure Call where
  service : String
  kwargs : Data
  entity_ids : List String
deriving DecidableEq

/-- The `for attr, value in data.items()` loop of
`BaseServiceCallHandler._generate_calls_from_dict`.  `data` is the full
(injected) dict used for the range lookups and the block check; `iter` is
the suffix still to be visited; `trp` is `temp_range_processed`. -/
def genLoop (getIds : String → List String) (blockAttr : String → Bool)
    (fs : FilterState) (data : Data) : List (String × Value) → Bool → List Call
  | [], _ => []
  | (attr, v) :: rest, trp =>
    if v == Value.null then genLoop getIds blockAttr fs data rest trp
    else if !fs.allowD attr then genLoop getIds blockAttr fs data rest trp
    else if blockAttr attr then genLoop getIds blockAttr fs data rest trp
    else if attr == "target_temp_low" || attr == "target_temp_high" then
      if trp then genLoop getIds blockAttr fs data rest trp
      else
        let low := pyDictGet data "target_temp_low"
        let high := pyDictGet data "target_temp_high"
        if low != Value.null && high != Value.null then
          let eids := getIds attr
          if eids.isEmpty then genLoop getIds blockAttr fs data rest trp
          else
            { service := "set_temperature",
              kwargs := [("target_temp_low", low), ("target_temp_high", high)],
              entity_ids := eids } :: genLoop getIds blockAttr fs data rest true
        else genLoop getIds blockAttr fs data rest trp
    else
      match ATTR_SERVICE_MAP attr with
      | none => genLoop getIds blockAttr fs data rest trp
      | some service =>
        let eids := getIds attr
        if eids.isEmpty then genLoop getIds blockAttr fs data rest trp
        else
          { service := service, kwargs := [(attr, v)], entity_ids := eids }
            :: genLoop getIds blockAttr fs data rest trp

/-- `data = data or self.target_state.to_dict()` in
`_generate_calls_from_dict` (an explicitly supplied *empty* dict is falsy
and also falls back to the target-state projection). -/
def raw_dispatch_data (ts : TargetState) (data? : Option Data) : Data :=
  match data? with
  | some d => if d.isEmpty then ts.to_dict else d
  | none => ts.to_dict

/-- The raw data followed by `self._inject_call_kwargs(data)` (which is
`_min_temp_when_off`). -/
def effective_dispatch_data (cfg : GroupCfg) (ts : TargetState)
    (data? : Option Data) : Data :=
  min_temp_when_off cfg (raw_dispatch_data ts data?)

/-- `BaseServiceCallHandler._generate_calls_from_dict`, parameterised by the
handler hooks `_get_call_entity_ids` (`getIds`) and `_block_call_attr`
(`blockAttr`).  `fs` is `filter_state or FilterState()`. -/
def generate_calls_from_dict (getIds : String → List String)
    (blockAttr : Data → String → Bool) (cfg : GroupCfg) (ts : TargetState)
    (data? : Option Data) (fs : FilterState) : List Call :=
  let data := effective_dispatch_data cfg ts data?
  genLoop getIds (blockAttr data) fs data data false

/-- `SyncCallHandler._generate_calls`: diff-based entity selection
(`_get_call_entity_ids = _get_unsynced_entities`), base `_block_call_attr`
(wake-up prevention), configured sync-attribute filter. -/
def sync_generate_calls (env : GroupEnv) (cfg : GroupCfg) (ts : TargetState)
    (fs : FilterState) (data? : Option Data) : List Call :=
  generate_calls_from_dict (get_unsynced_entities env cfg ts)
    (block_wakeup_calls cfg) cfg ts data? fs

/-- `ClimateCallHandler._generate_calls`: empty/None data yields no calls;
entity selection is all members; `_block_call_attr` is overridden to never
block. -/
def climate_generate_calls (env : GroupEnv) (cfg : GroupCfg) (ts : TargetState)
    (data? : Option Data) : List Call :=
  match data? with
  | none => []
  | some d =>
    if d.isEmpty then []
    else
      generate_calls_from_dict (fun _ => env.climate_entity_ids)
        (fun _ _ => false) cfg ts (some d) {}

/-- `ClimateCallHandler._block_all_calls`: blocking mode blocks the call
batch unless the data explicitly carries `hvac_mode`. -/
def climate_block_all_calls (cfg : GroupCfg) (data? : Option Data) : Bool :=
  match data? with
  | some d =>
    if !d.isEmpty && dataHasKey d "hvac_mode" then false else cfg.blocking_mode
  | none => cfg.blocking_mode

/-! ## service_call.py: `_execute_calls` retry loop -/

/-- The rebinding `data = {ATTR_ENTITY_ID: call["entity_ids"], **call["kwargs"]}`
performed for each issued call inside `_execute_calls`: after an attempt that
issued at least one call, the local `data` holds the service payload of the
*last* issued call instead of the originally supplied arguments. -/
def clobbered_service_data (calls : List Call) (d : Option Data) : Option Data :=
  match calls.getLast? with
  | some c => some (("entity_id", Value.ids c.entity_ids) :: c.kwargs)
  | none => d

/-- The `for attempt in range(attempts)` loop of
`BaseServiceCallHandler._execute_calls`, returning the list of call batches
issued per attempt.  Each attempt regenerates the calls from the current
`data` variable; an attempt with no pending calls returns early; the command
failures are caught inside the loop, so the generated batches do not depend
on per-call success. -/
def execute_call_attempts (gen : Option Data → List Call) :
    Nat → Option Data → List (List Call)
  | 0, _ => []
  | Nat.succ n, d =>
    let calls := gen d
    if calls.isEmpty then []
    else calls :: execute_call_attempts gen n (clobbered_service_data calls d)

/-- `BaseServiceCallHandler._execute_calls`: `attempts = 1 + retry_attempts`,
the blocking hook is consulted once before the loop. -/
def execute_calls (retry_attempts : Nat) (blockAll : Option Data → Bool)
    (gen : Option Data → List Call) (d : Option Data) : List (List Call) :=
  if blockAll d then [] else execute_call_attempts gen (1 + retry_attempts) d

/-! ## state.py: state managers (write gatekeepers) -/

/-- `BaseStateManager._check_blocking_mode`. -/
def check_blocking_mode (cfg : GroupCfg) : Bool :=
  !cfg.blocking_mode

/-- The per-member predicate of the `other_active_members` comprehension in
`BaseStateManager._check_partial_sync`: the member has a state object and
that state is neither `off` nor `unavailable`/`unknown`. -/
def memberActive (env : GroupEnv) (eid : String) : Bool :=
  match env.states eid with
  | some st =>
    st.state != "off" && st.state != "unavailable" && st.state != "unknown"
  | none => false

/-- `BaseStateManager._check_partial_sync` ("Last Man Standing").  Note the
source tests `HVACMode.OFF not in kwargs.get("hvac_mode", "")`, a Python
substring test on the mode string (`"off"` is a substring of no other
`HVACMode` value); a missing key defaults to `""`.  The component only ever
stores mode strings under `hvac_mode`, so non-string values map to `""`. -/
def check_partial_sync (env : GroupEnv) (cfg : GroupCfg)
    (entity_id : Option String) (kwargs : Data) : Bool :=
  if !cfg.ignore_off_members then true
  else
    let modeStr :=
      match dataGet kwargs "hvac_mode" with
      | some (Value.s m) => m
      | _ => ""
    if !pyStrIn "off" modeStr then true
    else
      let other_active_members := env.climate_entity_ids.filter (fun eid =>
        decide (some eid ≠ entity_id) && memberActive env eid)
      other_active_members.isEmpty

/-- Result of `BaseStateManager.update`: accepted flag plus the (possibly
unchanged) shared target state. -/
structure UpdateResult where
  accepted : Bool
  state : TargetState
deriving DecidableEq

/-- `BaseStateManager.update`: run the derived `_pre_update_filter`, then
overwrite the metadata keys in `kwargs` (`last_source := SOURCE`,
`last_entity := entity_id or group.entity_id`, `last_timestamp := now`) and
apply the structural update. -/
def managerUpdate (source : String) (preFilter : Option String → Data → Bool)
    (cfg : GroupCfg) (ts : TargetState) (now : Rat)
    (entity_id : Option String) (kwargs : Data) : UpdateResult :=
  if !preFilter entity_id kwargs then ⟨false, ts⟩
  else
    let kwargs1 := dataSetKey kwargs "last_source" (Value.s source)
    let kwargs2 := dataSetKey kwargs1 "last_entity"
      (Value.s (entity_id.getD cfg.group_entity_id))
    let kwargs3 := dataSetKey kwargs2 "last_timestamp" (Value.n now)
    ⟨true, ts.updateData kwargs3⟩

/-- `ClimateStateManager.update` (SOURCE = "group"): `_pre_update_filter`
is `_check_blocking_mode`. -/
def climateStateUpdate (cfg : GroupCfg) (ts : TargetState) (now : Rat)
    (entity_id : Option String) (kwargs : Data) : UpdateResult :=
  managerUpdate "group" (fun _ _ => check_blocking_mode cfg) cfg ts now entity_id kwargs

/-- `SyncModeStateManager.update` (SOURCE = "sync_mode"): blocking-mode
filter, then partial-sync filter. -/
def syncModeStateUpdate (env : GroupEnv) (cfg : GroupCfg) (ts : TargetState)
    (now : Rat) (entity_id : Option String) (kwargs : Data) : UpdateResult :=
  managerUpdate "sync_mode"
    (fun e k => check_blocking_mode cfg && check_partial_sync env cfg e k)
    cfg ts now entity_id kwargs

/-- `WindowControlStateManager.update` (SOURCE = "window_control"): blocks
all updates. -/
def windowControlStateUpdate (cfg : GroupCfg) (ts : TargetState) (now : Rat)
    (entity_id : Option String) (kwargs : Data) : UpdateResult :=
  managerUpdate "window_control" (fun _ _ => false) cfg ts now entity_id kwargs

/-- `ScheduleStateManager.update` (SOURCE = "schedule"): inherits the base
`_pre_update_filter`, which accepts everything. -/
def scheduleStateUpdate (cfg : GroupCfg) (ts : TargetState) (now : Rat)
    (entity_id : Option String) (kwargs : Data) : UpdateResult :=
  managerUpdate "schedule" (fun _ _ => true) cfg ts now entity_id kwargs

/-! ## climate.py: cold start seeding -/

/-- Modelled from the spec: `CurrentState` is imported from `.state` in
`climate.py` but its definition is not among the provided sources.  Per §2
and §3 of the spec (the Aggregator's "read-only observed current state") it
carries the same nine controllable attributes as `TargetState`, and per §4.1
its `to_dict` omits absent attributes, like `TargetState.to_dict`. -/
structure CurrentState where
  hvac_mode : Option String := none
  temperature : Option Rat := none
  target_temp_low : Option Rat := none
  target_temp_high : Option Rat := none
  humidity : Option Rat := none
  preset_mode : Option String := none
  fan_mode : Option String := none
  swing_mode : Option String := none
  swing_horizontal_mode : Option String := none
deriving DecidableEq

/-- `CurrentState.to_dict()` (see `CurrentState` above). -/
def CurrentState.to_dict (cs : CurrentState) : Data :=
  filterFieldKeysOrdered.filterMap (fun k => (get cs k).map (fun v => (k, v)))
where
  /-- dataclass field order of `CurrentState`. -/
  filterFieldKeysOrdered : List String :=
    ["hvac_mode", "temperature", "target_temp_low", "target_temp_high",
     "humidity", "preset_mode", "fan_mode", "swing_mode", "swing_horizontal_mode"]
  /-- field access by key. -/
  get (cs : CurrentState) (k : String) : Option Value :=
    match k with
    | "hvac_mode" => cs.hvac_mode.map Value.s
    | "temperature" => cs.temperature.map Value.n
    | "target_temp_low" => cs.target_temp_low.map Value.n
    | "target_temp_high" => cs.target_temp_high.map Value.n
    | "humidity" => cs.humidity.map Value.n
    | "preset_mode" => cs.preset_mode.map Value.s
    | "fan_mode" => cs.fan_mode.map Value.s
    | "swing_mode" => cs.swing_mode.map Value.s
    | "swing_horizontal_mode" => cs.swing_horizontal_mode.map Value.s
    | _ => none

/-- The "Cold Start" block at the end of
`ClimateGroup.async_update_group_state` (climate.py lines 818-824): if the
shared target state is still the default-empty record, seed it from the
current group state via `schedule_state_manager.update(last_source="restore",
**initial_data)`. -/
def cold_start_seed (cfg : GroupCfg) (ts : TargetState) (cur : CurrentState)
    (now : Rat) : TargetState :=
  if ts == ({} : TargetState) then
    let initial_data := cur.to_dict
    if initial_data.isEmpty then ts
    else
      (scheduleStateUpdate cfg ts now none
        (("last_source", Value.s "restore") :: initial_data)).state
  else ts

/-! ## state.py: `ChangeState.from_event` -/

/-- `ChangeState`: the entity id of the reporting member plus the deviation
dict (attribute keys mapped to the member's reported values). -/
structure ChangeState where
  entity_id : Option String
  deviations : Data
deriving DecidableEq

/-- `new_state.attributes.get(key, None)`: a stored Python `None` and a
missing key are both `None` to the caller. -/
def memberAttrVal (st : MemberState) (key : String) : Option Value :=
  match dataGet st.attrs key with
  | some Value.null => none
  | v => v

/-- The member value read by `from_event`: `new_state.state` for
`hvac_mode`, otherwise `new_state.attributes.get(key, None)`. -/
def reportedValue (st : MemberState) (key : String) : Option Value :=
  if key == "hvac_mode" then some (Value.s st.state) else memberAttrVal st key

/-- `ChangeState.from_event`: deviation of the event's new state from the
target state, iterating `TargetState.__annotations__` in field order. -/
def from_event (entityId : Option String) (newState : Option MemberState)
    (ts : TargetState) : ChangeState :=
  match newState with
  | none => ⟨entityId, []⟩
  | some st =>
    let devs := targetFieldKeys.filterMap (fun key =>
      match ts.get key with
      | none => none
      | some tv =>
        match reportedValue st key with
        | none => none
        | some mv =>
          if mv == tv then none
          else if (key == "temperature" || key == "humidity") &&
              within_tolerance tv mv then none
          else some (key, mv))
    ⟨entityId, devs⟩

/-! ## sync_mode.py: `SyncModeHandler.resync` -/

/-- `const.SyncMode`. -/
inductive SyncMode where
  | standard
  | lock
  | mirror
deriving DecidableEq

/-- The observable actions `resync` can take: a `state_manager.update(...)`
call, scheduling the debounced enforcement dispatch, or raising (the
unguarded `origin_event.context.parent_id` in the debug log when there is no
origin event). -/
inductive ResyncAction where
  | stateUpdate (entity : Option String) (kwargs : Data)
  | enforce
  | raiseError
deriving DecidableEq

/-- The origin event inspected by the Deep Origin Analysis. -/
structure OriginEvent where
  event_type : String
  domain : String
  context_id : String
  parent_id : Option String
  service_data : Data
deriving DecidableEq

/-- The inputs `resync` reads from the group. -/
structure ResyncInput where
  sync_mode : SyncMode
  startup_phase : Bool
  event_context_id : String
  origin : Option OriginEvent
  change_entity_id : Option String
  change_dict : Data
deriving DecidableEq

/-- `trusted_context_ids` in `SyncModeHandler.resync`. -/
def trusted_context_ids : List String :=
  ["service_call", "group", "sync_mode", "schedule"]

/-- `parent_id.split("|", 1)[1]` guarded by `"|" in parent_id`: returns the
part after the first `|`, or `""` when no `|` is present. -/
def splitAtBar : List Char → Option (List Char)
  | [] => none
  | c :: rest => if c == '|' then some rest else splitAtBar rest

/-- Master-entity extraction from a causal parent id
(`"Timestamp|MasterEntityID"`, see `_get_parent_id`). -/
def parse_master_entity (parentId : String) : String :=
  match splitAtBar parentId.data with
  | none => ""
  | some post => String.mk post

/-- `BaseServiceCallHandler._get_parent_id`: `f"{timestamp}|{master}"` with
`master = target_state.last_entity or ""`. -/
def get_parent_id (timestamp : String) (ts : TargetState) : String :=
  timestamp ++ "|" ++ (ts.last_entity.getD "")

/-- The setpoint attributes filtered out of independent events while the
target mode is OFF (`setpoint_attrs` in `resync`). -/
def setpointAttrKeys : List String :=
  ["temperature", "target_temp_low", "target_temp_high", "humidity"]

/-- The tail of the fresh-event path of `resync` after the off-mode setpoint
filter: the Mirror / Lock(last-man-standing) target-state update attempt,
always followed by scheduling the debounced enforcement dispatch. -/
def resync_fresh_tail (cfg : GroupCfg) (fs : FilterState) (inp : ResyncInput)
    (cd : Data) : List ResyncAction :=
  let updates :=
    if inp.sync_mode == SyncMode.mirror then
      let filtered := cd.filter (fun p => fs.allowMirror p.1)
      if filtered.isEmpty then [] else [ResyncAction.stateUpdate inp.change_entity_id filtered]
    else if inp.sync_mode == SyncMode.lock && cfg.ignore_off_members &&
        dataGet cd "hvac_mode" == some (Value.s "off") then
      [ResyncAction.stateUpdate inp.change_entity_id [("hvac_mode", Value.s "off")]]
    else []
  updates ++ [ResyncAction.enforce]

/-- The master entity recorded in the origin batch's parent id
(`parent_id.split("|", 1)`; a missing parent id defaults to `""`). -/
def echoMaster (oe : OriginEvent) : String :=
  parse_master_entity (oe.parent_id.getD "")

/-- The `accepted_changes` dict built by the per-attribute loop of the Deep
Origin Analysis in `resync`: an attribute of the delta is accepted exactly
when it was *not* part of the issued service data (side effect) and either
no master is recorded or the reporting entity is the master; ordered
attributes (clean or dirty echoes) only `continue`. -/
def echoAccepted (oe : OriginEvent) (inp : ResyncInput) : Data :=
  inp.change_dict.filter (fun p =>
    !dataHasKey oe.service_data p.1 &&
    !(echoMaster oe != "" && decide (inp.change_entity_id ≠ some (echoMaster oe))))

/-- `SyncModeHandler.resync` as the list of actions taken, in order.  The
startup gate (`time.time() - startup_time < STARTUP_BLOCK_DELAY`) is the
boolean `startup_phase`.  With a non-empty change and no origin event the
debug log dereferences `origin_event.context` and raises (`raiseError`). -/
def resync (cfg : GroupCfg) (ts : TargetState) (fs : FilterState)
    (inp : ResyncInput) : List ResyncAction :=
  if inp.sync_mode == SyncMode.standard then []
  else if inp.startup_phase then []
  else if cfg.blocking_mode then []
  else if inp.change_dict.isEmpty then []
  else
    match inp.origin with
    | none => [ResyncAction.raiseError]
    | some oe =>
      if inp.event_context_id == "window_control" then []
      else if oe.event_type == "call_service" && oe.domain == "climate" &&
          oe.context_id ∈ trusted_context_ids then
        -- Deep Origin Analysis: echo / side-effect classification.
        if (echoAccepted oe inp).isEmpty then []
        else [ResyncAction.stateUpdate inp.change_entity_id (echoAccepted oe inp)]
      else
        -- Fresh event (no usable origin context).
        let is_switching_on :=
          match dataGet inp.change_dict "hvac_mode" with
          | some v => v != Value.s "off"
          | none => false
        if ts.hvac_mode == some "off" && !is_switching_on then
          let cd := inp.change_dict.filter (fun p => p.1 ∉ setpointAttrKeys)
          if cd.isEmpty then []
          else resync_fresh_tail cfg fs inp cd
        else resync_fresh_tail cfg fs inp inp.change_dict

/-! ## window_control.py: area-based window control -/

/-- The environment the area-based handlers read: configured window sensors,
group members, the registry area lookup (entity area with device-area
fallback — the shared logic of `_get_entity_area` and
`_get_thermostats_in_area`), delays, and the restore payload
`_handle_window_closed` builds from the target state. -/
structure WEnv where
  window_sensors : List String
  climate_entity_ids : List String
  areaOf : String → Option String
  window_open_delay : Rat
  close_delay : Rat
  restore_data : Data

/-- `WindowControlHandler._get_thermostats_in_area`: group members whose
(entity-or-device) registry area matches. -/
def thermostatsInArea (env : WEnv) (area : String) : List String :=
  env.climate_entity_ids.filter (fun m => env.areaOf m == some area)

/-- The restore payload built in `_handle_window_closed` from the target
state: `hvac_mode` and `temperature` when truthy (Python truthiness: the
empty string and `0.0` are falsy). -/
def windowRestoreData (ts : TargetState) : Data :=
  (match ts.hvac_mode with
   | some m => if m != "" then [("hvac_mode", Value.s m)] else []
   | none => []) ++
  (match ts.temperature with
   | some x => if x != 0 then [("temperature", Value.n x)] else []
   | none => [])

/-- Which handler a pending `async_call_later` timer will run. -/
inductive TimerKind where
  | tOpen
  | tClose
deriving DecidableEq

/-- `self._timers`: at most one pending timer per window sensor, with the
scheduled firing time. -/
structure WCState where
  timers : List (String × TimerKind × Rat)
deriving DecidableEq

/-- The outbound `call_immediate` commands the area-based handlers issue. -/
inductive WCommand where
  | off (entity_ids : List String)
  | restore (data : Data) (entity_ids : List String)
deriving DecidableEq

/-- Timed events: a window-sensor state change (processed by
`_area_based_listener`) or the firing of a scheduled timer
(`_handle_window_opened` / `_handle_window_closed`).  `live` is the snapshot
of `hass.states` truthiness (`state in (STATE_ON, STATE_OPEN)`) of the other
window sensors at firing time. -/
inductive WEvent where
  | sensor (window : String) (st : String) (time : Rat)
  | fire (window : String) (time : Rat) (live : String → Bool)

/-- `WEvent` is a fire event. -/
def WEvent.isFire : WEvent → Bool
  | .fire _ _ _ => true
  | _ => false

/-- `WindowControlHandler._area_based_listener`: unavailable/unknown reports
are dropped; any pending timer for this window is cancelled; an open report
schedules `_handle_window_opened` after `window_open_delay`, a close report
schedules `_handle_window_closed` after `close_delay`. -/
def stepSensor (env : WEnv) (s : WCState) (w : String) (st : String)
    (now : Rat) : WCState :=
  if st == "unavailable" || st == "unknown" then s
  else
    let timers := s.timers.filter (fun e => e.1 != w)
    if st == "on" || st == "open" then
      ⟨timers ++ [(w, TimerKind.tOpen, now + env.window_open_delay)]⟩
    else
      ⟨timers ++ [(w, TimerKind.tClose, now + env.close_delay)]⟩

/-- Firing a scheduled timer.  A fire event whose `(window, time)` pair is
not in `timers` corresponds to a callback that was cancelled by
`_area_based_listener` and therefore never runs.  An open fire runs
`_handle_window_opened` (turn the area's thermostats off); a close fire runs
`_handle_window_closed` (restore the area unless a sibling window of the
same area is still open). -/
def stepFire (env : WEnv) (s : WCState) (w : String) (t : Rat)
    (live : String → Bool) : WCState × List WCommand :=
  match s.timers.find? (fun e => e.1 == w && e.2.2 == t) with
  | none => (s, [])
  | some (_, kind, _) =>
    let s' : WCState := ⟨s.timers.filter (fun e => e.1 != w)⟩
    match kind with
    | TimerKind.tOpen =>
      match env.areaOf w with
      | none => (s', [])
      | some area =>
        let eids := thermostatsInArea env area
        if eids.isEmpty then (s', []) else (s', [WCommand.off eids])
    | TimerKind.tClose =>
      match env.areaOf w with
      | none => (s', [])
      | some area =>
        let siblings_open := env.window_sensors.any (fun sid =>
          sid != w && env.areaOf sid == some area && live sid)
        if siblings_open then (s', [])
        else
          let eids := thermostatsInArea env area
          if eids.isEmpty then (s', [])
          else if env.restore_data.isEmpty then (s', [])
          else (s', [WCommand.restore env.restore_data eids])

/-- Run a timed event trace, collecting the issued commands in order. -/
def runTrace (env : WEnv) : WCState → List WEvent → WCState × List WCommand
  | s, [] => (s, [])
  | s, WEvent.sensor w st t :: rest => runTrace env (stepSensor env s w st t) rest
  | s, WEvent.fire w t live :: rest =>
    let r := stepFire env s w t live
    let r' := runTrace env r.1 rest
    (r'.1, r.2 ++ r'.2)

/-- A command is an off command. -/
def WCommand.isOff : WCommand → Bool
  | .off _ => true
  | _ => false

/-- No pending open-action timer. -/
def noOpenTimers (s : WCState) : Bool :=
  s.timers.all (fun e => e.2.1 != TimerKind.tOpen)

/-! # Claims -/

/-- **C10**: `ChangeState.from_event` puts an attribute into the delta only
when both the target value and the member's reported value for that
attribute are non-absent; an event without a new state, or an entirely
empty target state, yields a delta holding only the entity id. -/
theorem C10_from_event_delta (e : Option String) (ns : Option MemberState)
    (ts : TargetState) :
    (∀ key v, (key, v) ∈ (from_event e ns ts).deviations →
      ∃ st, ns = some st ∧ (ts.get key).isSome = true ∧
        (reportedValue st key).isSome = true) ∧
    from_event e none ts = ⟨e, []⟩ ∧
    from_event e ns ({} : TargetState) = ⟨e, []⟩ := by
  refine ⟨?_, rfl, ?_⟩
  · intro key v hmem
    cases ns with
    | none => simp [from_event] at hmem
    | some st =>
      simp only [from_event] at hmem
      rcases List.mem_filterMap.mp hmem with ⟨a, _, hfa⟩
      cases hts : ts.get a with
      | none => rw [hts] at hfa; simp at hfa
      | some tv =>
        rw [hts] at hfa
        cases hrv : reportedValue st a with
        | none => rw [hrv] at hfa; simp at hfa
        | some mv =>
          rw [hrv] at hfa
          by_cases h1 : (mv == tv) = true
          · simp [h1] at hfa
          · by_cases h2 : ((a == "temperature" || a == "humidity") &&
                within_tolerance tv mv) = true
            · simp [h1, h2] at hfa
            · simp [h1, h2] at hfa
              obtain ⟨hak, _⟩ := hfa
              subst hak
              exact ⟨st, rfl, by simp [hts], by simp [hrv]⟩
  · cases ns <;> rfl

/-- Witness for `C10_from_event_delta` at a concrete input: a member
reporting `fan_mode=medium` against a target with an opinion on `fan_mode`
yields that deviation, and the conclusions hold there. -/
theorem C10_from_event_delta_witness :
    (∀ key v,
        (key, v) ∈ (from_event (some "climate.a")
          (some ⟨"heat", [("fan_mode", Value.s "medium")]⟩)
          { fan_mode := some "low", hvac_mode := some "heat" }).deviations →
      ∃ st, (some ⟨"heat", [("fan_mode", Value.s "medium")]⟩ : Option MemberState) = some st ∧
        (TargetState.get { fan_mode := some "low", hvac_mode := some "heat" } key).isSome = true ∧
        (reportedValue st key).isSome = true) ∧
    from_event (some "climate.a") none
      { fan_mode := some "low", hvac_mode := some "heat" } = ⟨some "climate.a", []⟩ ∧
    from_event (some "climate.a")
      (some ⟨"heat", [("fan_mode", Value.s "medium")]⟩) ({} : TargetState)
      = ⟨some "climate.a", []⟩ :=
  C10_from_event_delta (some "climate.a")
    (some ⟨"heat", [("fan_mode", Value.s "medium")]⟩)
    { fan_mode := some "low", hvac_mode := some "heat" }

/-- Concrete first-complete snapshot for the cold-start scenario of C8:
`{mode: heat, temp: 21.0}`. -/
def curC8 : CurrentState := { hvac_mode := some "heat", temperature := some 21 }

/-- **C8**: the cold-start seeding block of `async_update_group_state` does
seed an empty `TargetState` with the snapshot's non-absent attributes, but
the provenance source ends up as `"schedule"`, not `"restore"`: the caller
passes `last_source="restore"`, and `BaseStateManager.update` then
overwrites `kwargs["last_source"]` with the manager's `SOURCE`
(`ScheduleStateManager.SOURCE = "schedule"`).  This evaluates the embedded
code at the failing input. -/
theorem C8_cold_start_provenance :
    cold_start_seed {} {} curC8 1000 =
      { hvac_mode := some "heat", temperature := some 21,
        last_source := some "schedule", last_entity := some "climate.group",
        last_timestamp := some 1000 } ∧
    (cold_start_seed {} {} curC8 1000).last_source ≠ some "restore" := by
  decide

/-- Environment for the C7 retry-loop evaluation: a single member. -/
def envC7 : GroupEnv :=
  { climate_entity_ids := ["climate.a"], states := fun _ => none }

/-- The `ClimateCallHandler` generator used by `_execute_calls` in the C7
scenario (deterministic in its `data` argument). -/
def genC7 : Option Data → List Call :=
  climate_generate_calls envC7 {} {}

/-- The originally supplied dispatch arguments of the C7 scenario. -/
def dataC7 : Data :=
  [("hvac_mode", Value.s "heat"), ("temperature", Value.n 21)]

/-- **C7**: the retry loop of `_execute_calls` does *not* recompute the
pending calls from the originally supplied arguments: the loop body rebinds
the local `data` to the last issued call's service payload
(`data = {ATTR_ENTITY_ID: ..., **call["kwargs"]}`), so with
`retry_attempts = 1` and original data `{hvac_mode: heat, temperature: 21}`
the first attempt issues both commands while the second attempt regenerates
only the `set_temperature` command — the `set_hvac_mode` command is lost
from the retry.  The final conjunct shows the early exit on an attempt with
zero pending calls. -/
theorem C7_retry_clobbers_data :
    execute_calls 1 (climate_block_all_calls {}) genC7 (some dataC7) =
      [[{ service := "set_hvac_mode", kwargs := [("hvac_mode", Value.s "heat")],
          entity_ids := ["climate.a"] },
        { service := "set_temperature", kwargs := [("temperature", Value.n 21)],
          entity_ids := ["climate.a"] }],
       [{ service := "set_temperature", kwargs := [("temperature", Value.n 21)],
          entity_ids := ["climate.a"] }]] ∧
    execute_call_attempts genC7 5 none = [] := by
  decide

/-- **C4 (counterexample)**: the claim states that an explicit request to
change the primary hvac mode is always allowed through the write
gatekeepers even while the suppression override is active.  It is not: with
`blocking_mode = True`, `ClimateStateManager._pre_update_filter`
(`_check_blocking_mode`) rejects a pure `{hvac_mode: heat}` mutation and
leaves the target state unchanged. -/
theorem C4_counterexample :
    (climateStateUpdate { blocking_mode := true } {} 0 none
      [("hvac_mode", Value.s "heat")]).accepted = false ∧
    (climateStateUpdate { blocking_mode := true } {} 0 none
      [("hvac_mode", Value.s "heat")]).state = ({} : TargetState) := by
  decide

/-- **C4 (amended)**: while the suppression override is active, the
direct-command ("group") and enforcement-sync gatekeepers reject *every*
proposed TargetState mutation — including hvac-mode changes — and the
window-control gatekeeper rejects always; the hvac-mode exception lives in
the direct-command call handler's call-blocking predicate
(`ClimateCallHandler._block_all_calls`), which lets service-call batches
whose data carries `hvac_mode` through even while suppressed. -/
theorem C4_blocking_rejects_all_writes (env : GroupEnv) (cfg : GroupCfg)
    (ts : TargetState) (now : Rat) (e : Option String) (kwargs : Data)
    (data : Data) (hb : cfg.blocking_mode = true) :
    climateStateUpdate cfg ts now e kwargs = ⟨false, ts⟩ ∧
    syncModeStateUpdate env cfg ts now e kwargs = ⟨false, ts⟩ ∧
    windowControlStateUpdate cfg ts now e kwargs = ⟨false, ts⟩ ∧
    (dataHasKey data "hvac_mode" = true → data ≠ [] →
      climate_block_all_calls cfg (some data) = false) := by
  refine ⟨?_, ?_, ?_, ?_⟩
  · simp [climateStateUpdate, managerUpdate, check_blocking_mode, hb]
  · simp [syncModeStateUpdate, managerUpdate, check_blocking_mode, hb]
  · simp [windowControlStateUpdate, managerUpdate]
  · intro hk hne
    cases data with
    | nil => exact absurd rfl hne
    | cons p l => simp [climate_block_all_calls, hk]

/-- Witness for `C4_blocking_rejects_all_writes` at a concrete suppressed
configuration. -/
theorem C4_blocking_rejects_all_writes_witness :
    climateStateUpdate { blocking_mode := true } {} 0 none
      [("temperature", Value.n 21)] = ⟨false, {}⟩ ∧
    syncModeStateUpdate envC7 { blocking_mode := true } {} 0 none
      [("temperature", Value.n 21)] = ⟨false, {}⟩ ∧
    windowControlStateUpdate { blocking_mode := true } {} 0 none
      [("temperature", Value.n 21)] = ⟨false, {}⟩ ∧
    (dataHasKey [("hvac_mode", Value.s "heat")] "hvac_mode" = true →
      [("hvac_mode", Value.s "heat")] ≠ ([] : Data) →
      climate_block_all_calls { blocking_mode := true }
        (some [("hvac_mode", Value.s "heat")]) = false) :=
  C4_blocking_rejects_all_writes envC7 { blocking_mode := true } {} 0 none
    [("temperature", Value.n 21)] [("hvac_mode", Value.s "heat")] rfl

/-- **C3**: with `ignore_off_members` enabled and no suppression, a
sync-mode TargetState update setting `hvac_mode` to `off` proposed by
member `A` is rejected (returns `false`, target state unchanged) while some
other member's live snapshot is active (neither `off` nor
`unavailable`/`unknown`), and is accepted once every other member's live
snapshot is off, unavailable, unknown or missing.  The predicate reads the
live `env.states` at decision time. -/
theorem C3_last_man_standing (env : GroupEnv) (cfg : GroupCfg)
    (ts : TargetState) (now : Rat) (A : String) (kwargs : Data)
    (hcfg : cfg.ignore_off_members = true)
    (hmode : dataGet kwargs "hvac_mode" = some (Value.s "off"))
    (hnb : cfg.blocking_mode = false) :
    ((∃ B ∈ env.climate_entity_ids, B ≠ A ∧ memberActive env B = true) →
      syncModeStateUpdate env cfg ts now (some A) kwargs = ⟨false, ts⟩) ∧
    ((∀ B ∈ env.climate_entity_ids, B ≠ A → memberActive env B = false) →
      (syncModeStateUpdate env cfg ts now (some A) kwargs).accepted = true) := by
  have hin : pyStrIn "off" "off" = true := rfl
  have hpred : check_partial_sync env cfg (some A) kwargs =
      (env.climate_entity_ids.filter (fun eid =>
        decide (some eid ≠ some A) && memberActive env eid)).isEmpty := by
    simp [check_partial_sync, hcfg, hmode, hin]
  constructor
  · rintro ⟨B, hB, hBA, hact⟩
    have hmem : B ∈ env.climate_entity_ids.filter (fun eid =>
        decide (some eid ≠ some A) && memberActive env eid) :=
      List.mem_filter.mpr ⟨hB, by simp [hact, hBA]⟩
    have hie : (env.climate_entity_ids.filter (fun eid =>
        decide (some eid ≠ some A) && memberActive env eid)).isEmpty = false := by
      rw [Bool.eq_false_iff]
      simpa [List.isEmpty_iff] using List.ne_nil_of_mem hmem
    simp only [syncModeStateUpdate, managerUpdate, check_blocking_mode, hnb,
      hpred, hie, Bool.not_false, Bool.true_and, Bool.not_true, if_true]
  · intro hall
    have hfil : env.climate_entity_ids.filter (fun eid =>
        decide (some eid ≠ some A) && memberActive env eid) = [] := by
      rw [List.filter_eq_nil_iff]
      intro B hB hp
      rw [Bool.and_eq_true] at hp
      by_cases hBA : B = A
      · subst hBA
        simp at hp
      · have := hall B hB hBA
        rw [this] at hp
        exact Bool.noConfusion hp.2
    simp only [syncModeStateUpdate, managerUpdate, check_blocking_mode, hnb,
      hpred, hfil, List.isEmpty_nil, Bool.not_false, Bool.and_self, Bool.not_true,
      Bool.false_eq_true, if_false]

/-- Environment for the C3 witness: two members, both reporting an active
(`heat`) live state. -/
def envC3 : GroupEnv :=
  { climate_entity_ids := ["climate.a", "climate.b"],
    states := fun e =>
      if e == "climate.a" then some ⟨"heat", []⟩
      else if e == "climate.b" then some ⟨"heat", []⟩
      else none }

/-- Witness for `C3_last_man_standing` at a concrete two-member group. -/
theorem C3_last_man_standing_witness :
    ((∃ B ∈ envC3.climate_entity_ids, B ≠ "climate.a" ∧ memberActive envC3 B = true) →
      syncModeStateUpdate envC3 { ignore_off_members := true } {} 0 (some "climate.a")
        [("hvac_mode", Value.s "off")] = ⟨false, {}⟩) ∧
    ((∀ B ∈ envC3.climate_entity_ids, B ≠ "climate.a" → memberActive envC3 B = false) →
      (syncModeStateUpdate envC3 { ignore_off_members := true } {} 0 (some "climate.a")
        [("hvac_mode", Value.s "off")]).accepted = true) :=
  C3_last_man_standing envC3 { ignore_off_members := true } {} 0 "climate.a"
    [("hvac_mode", Value.s "off")] rfl rfl rfl

/-! ### Helper lemmas about dict updates and call generation -/

theorem dataSetKey_mem_val {d : Data} {k : String} {v : Value} :
    ∀ p ∈ dataSetKey d k v, p.1 = k → p.2 = v := by
  intro p hp hpk
  unfold dataSetKey at hp
  split at hp
  case isTrue h =>
    rcases List.mem_map.mp hp with ⟨q, hq, hqe⟩
    by_cases hqk : (q.1 == k) = true
    · rw [if_pos hqk] at hqe
      rw [← hqe]
    · rw [if_neg hqk] at hqe
      subst hqe
      exact absurd (beq_iff_eq.mpr hpk) hqk
  case isFalse h =>
    rcases List.mem_append.mp hp with hd | hs
    · have hany : (d.any fun q => q.1 == k) = true :=
        List.any_eq_true.mpr ⟨p, hd, beq_iff_eq.mpr hpk⟩
      exact absurd hany h
    · rw [List.mem_singleton] at hs
      rw [hs]

theorem dataSetKey_self_mem (d : Data) (k : String) (v : Value) :
    (k, v) ∈ dataSetKey d k v := by
  unfold dataSetKey
  split
  case isTrue h =>
    rcases List.any_eq_true.mp h with ⟨q, hq, hqk⟩
    refine List.mem_map.mpr ⟨q, hq, ?_⟩
    rw [if_pos hqk]
  case isFalse h =>
    exact List.mem_append.mpr (Or.inr (List.mem_singleton.mpr rfl))

theorem dataSetKey_keys {d : Data} {k : String} {v : Value} :
    ∀ p ∈ dataSetKey d k v, p.1 = k ∨ ∃ q ∈ d, p.1 = q.1 := by
  intro p hp
  unfold dataSetKey at hp
  split at hp
  case isTrue h =>
    rcases List.mem_map.mp hp with ⟨q, hq, hqe⟩
    by_cases hqk : (q.1 == k) = true
    · rw [if_pos hqk] at hqe
      left
      rw [← hqe]
    · rw [if_neg hqk] at hqe
      exact Or.inr ⟨q, hq, by rw [hqe]⟩
  case isFalse h =>
    rcases List.mem_append.mp hp with hd | hs
    · exact Or.inr ⟨p, hd, rfl⟩
    · rw [List.mem_singleton] at hs
      left
      rw [hs]

theorem to_dict_keys (ts : TargetState) :
    ∀ p ∈ ts.to_dict, p.1 ∈ targetFieldKeys := by
  intro p hp
  rcases List.mem_filterMap.mp hp with ⟨a, ha, hfa⟩
  rcases Option.map_eq_some'.mp hfa with ⟨v, _, hv⟩
  rw [← hv]
  exact ha

theorem mem_effective_none_keys (cfg : GroupCfg) (ts : TargetState) :
    ∀ p ∈ effective_dispatch_data cfg ts none, p.1 ∈ targetFieldKeys := by
  intro p hp
  unfold effective_dispatch_data raw_dispatch_data min_temp_when_off at hp
  split at hp
  · exact to_dict_keys ts p hp
  · split at hp
    · rcases dataSetKey_keys p hp with h | ⟨q, hq, he⟩
      · rw [h]
        decide
      · rw [he]
        exact to_dict_keys ts q hq
    · exact to_dict_keys ts p hp

theorem genLoop_eq_nil (getIds : String → List String) (blockAttr : String → Bool)
    (fs : FilterState) (data : Data) :
    ∀ (l : List (String × Value)) (trp : Bool),
      (∀ p ∈ l, getIds p.1 = []) →
      genLoop getIds blockAttr fs data l trp = [] := by
  intro l
  induction l with
  | nil => intro trp _; rfl
  | cons hd tl ih =>
    intro trp h
    obtain ⟨attr, v⟩ := hd
    have hid : getIds attr = [] := h (attr, v) (List.mem_cons_self _ _)
    have htl : ∀ p ∈ tl, getIds p.1 = [] :=
      fun p hp => h p (List.mem_cons_of_mem _ hp)
    simp only [genLoop, hid, List.isEmpty_nil]
    repeat' split
    all_goals first
      | exact ih _ htl
      | (exfalso; simp_all)

/-- "Member `e` is already at target for `attr`" — the per-member
convergence condition of C1, phrased over the live snapshot. -/
def converged_at (env : GroupEnv) (ts : TargetState) (attr : String)
    (e : String) : Bool :=
  match ts.get attr, env.states e with
  | some tv, some st => memberAtTarget st attr tv
  | _, _ => true

theorem get_unsynced_nil (env : GroupEnv) (cfg : GroupCfg) (ts : TargetState)
    (attr : String)
    (h : ∀ e ∈ env.climate_entity_ids, converged_at env ts attr e = true) :
    get_unsynced_entities env cfg ts attr = [] := by
  unfold get_unsynced_entities
  cases hts : ts.get attr with
  | none => rfl
  | some tv =>
    rw [List.filter_eq_nil_iff]
    intro e he hp
    have hc := h e he
    unfold converged_at at hc
    rw [hts] at hc
    cases hst : env.states e with
    | none =>
      rw [hst] at hp
      exact Bool.noConfusion hp
    | some st =>
      rw [hst] at hp hc
      simp only [Bool.and_eq_true] at hp
      obtain ⟨⟨⟨_, _⟩, ht⟩, he'⟩ := hp
      rw [Bool.not_eq_true'] at ht he'
      dsimp only at hc
      unfold memberAtTarget at hc
      rw [ht, he'] at hc
      exact Bool.noConfusion hc

/-- **C1**: a member is in the unsynced set of an attribute only when the
target has a non-absent value for it, the member's live snapshot exists,
the member supports the attribute (or the target mode value), and the
member is *not* already at target (exact match for discrete attributes,
`< 0.1` absolute difference for the temperature/humidity setpoints);
consequently, a sync-mode dispatch over a snapshot in which every member is
at target for every targeted attribute computes an empty call list. -/
theorem C1_sync_dispatch_convergence (env : GroupEnv) (cfg : GroupCfg)
    (ts : TargetState) (fs : FilterState)
    (hconv : ∀ attr ∈ targetFieldKeys, ∀ e ∈ env.climate_entity_ids,
      converged_at env ts attr e = true) :
    (∀ attr e, e ∈ get_unsynced_entities env cfg ts attr →
      e ∈ env.climate_entity_ids ∧ ∃ tv st, ts.get attr = some tv ∧
        env.states e = some st ∧ memberSupports st attr tv = true ∧
        memberAtTarget st attr tv = false) ∧
    sync_generate_calls env cfg ts fs none = [] := by
  constructor
  · intro attr e hmem
    unfold get_unsynced_entities at hmem
    cases hts : ts.get attr with
    | none =>
      rw [hts] at hmem
      exact absurd hmem (List.not_mem_nil e)
    | some tv =>
      rw [hts] at hmem
      obtain ⟨hmem', hp⟩ := List.mem_filter.mp hmem
      cases hst : env.states e with
      | none =>
        rw [hst] at hp
        exact Bool.noConfusion hp
      | some st =>
        rw [hst] at hp
        simp only [Bool.and_eq_true] at hp
        obtain ⟨⟨⟨hs, _⟩, ht⟩, he'⟩ := hp
        rw [Bool.not_eq_true'] at ht he'
        refine ⟨hmem', tv, st, rfl, rfl, hs, ?_⟩
        unfold memberAtTarget
        rw [ht, he']
        rfl
  · unfold sync_generate_calls generate_calls_from_dict
    apply genLoop_eq_nil
    intro p hp
    apply get_unsynced_nil
    intro e he
    exact hconv p.1 (mem_effective_none_keys cfg ts p hp) e he

/-- Environment for the C1 witness: two members converged on
`{hvac_mode: heat, temperature: 21.0}`, one of them reporting `20.95`
(within the `0.1` tolerance, the spec's own scenario). -/
def envC1 : GroupEnv :=
  { climate_entity_ids := ["climate.a", "climate.b"],
    states := fun e =>
      if e == "climate.a" then
        some ⟨"heat", [("hvac_modes", Value.ids ["off", "heat"]),
                       ("temperature", Value.n (2095 / 100))]⟩
      else if e == "climate.b" then
        some ⟨"heat", [("hvac_modes", Value.ids ["off", "heat"]),
                       ("temperature", Value.n 21)]⟩
      else none }

/-- Target state for the C1 witness. -/
def tsC1 : TargetState := { hvac_mode := some "heat", temperature := some 21 }

/-- Witness for `C1_sync_dispatch_convergence` on the concrete converged
snapshot (member at `20.95` vs target `21.0` counts as converged). -/
theorem C1_sync_dispatch_convergence_witness :
    (∀ attr e, e ∈ get_unsynced_entities envC1 {} tsC1 attr →
      e ∈ envC1.climate_entity_ids ∧ ∃ tv st, tsC1.get attr = some tv ∧
        envC1.states e = some st ∧ memberSupports st attr tv = true ∧
        memberAtTarget st attr tv = false) ∧
    sync_generate_calls envC1 {} tsC1 {} none = [] :=
  C1_sync_dispatch_convergence envC1 {} tsC1 {} (by
    intro attr ha e he
    simp only [targetFieldKeys] at ha
    simp only [envC1] at he
    fin_cases ha <;> fin_cases he <;>
      first
        | decide
        | (simp [converged_at, envC1, tsC1, TargetState.get, memberAtTarget,
            currentValue, dataGet, withinTolOpt, within_tolerance,
            isNumericAttr, FLOAT_TOLERANCE] <;> norm_num [abs_lt]))

theorem block_wakeup_temp_min (cfg : GroupCfg) (D : Data)
    (hmin : cfg.min_temp_off = true) :
    block_wakeup_calls cfg D "temperature" = false := by
  unfold block_wakeup_calls
  by_cases hc : (pyDictGet D "hvac_mode" == Value.s "off") = true
  · simp [hc, hmin]
  · simp [hc]

theorem block_wakeup_false_cases (cfg : GroupCfg) (D : Data) (attr : String)
    (hmode : pyDictGet D "hvac_mode" = Value.s "off")
    (hb : block_wakeup_calls cfg D attr = false) :
    attr = "hvac_mode" ∨ (attr = "temperature" ∧ cfg.min_temp_off = true) := by
  unfold block_wakeup_calls at hb
  rw [hmode] at hb
  by_cases ha : attr = "hvac_mode"
  · exact Or.inl ha
  · right
    have hcond : ((Value.s "off" == Value.s "off") && (attr != "hvac_mode")) = true := by
      simp [ha]
    rw [if_pos hcond] at hb
    by_cases hat : attr = "temperature"
    · subst hat
      by_cases hmt : cfg.min_temp_off = true
      · exact ⟨rfl, hmt⟩
      · exfalso
        simp [Bool.eq_false_iff.mpr hmt] at hb
    · exfalso
      simp [hat] at hb

/-- Whenever an entry passes the null / filter / block checks, is not a
range attribute, has a service mapping, and selects a non-empty entity
list, `genLoop` emits the corresponding call. -/
theorem genLoop_emits (getIds : String → List String) (blockAttr : String → Bool)
    (fs : FilterState) (D : Data) :
    ∀ (l : List (String × Value)) (trp : Bool) (k : String) (v : Value)
      (svc : String),
      (k, v) ∈ l → v ≠ Value.null → fs.allowD k = true → blockAttr k = false →
      (k == "target_temp_low" || k == "target_temp_high") = false →
      ATTR_SERVICE_MAP k = some svc → getIds k ≠ [] →
      ∃ c ∈ genLoop getIds blockAttr fs D l trp,
        c = { service := svc, kwargs := [(k, v)], entity_ids := getIds k } := by
  intro l
  induction l with
  | nil =>
    intro trp k v svc hm
    exact absurd hm (List.not_mem_nil _)
  | cons hd tl ih =>
    intro trp k v svc hm hv hfs hb hr hsvc hid
    obtain ⟨a, w⟩ := hd
    rcases List.mem_cons.mp hm with he | htl
    · injection he with h1 h2
      subst h1
      subst h2
      simp only [genLoop]
      rw [if_neg (by simp [hv] : ¬((v == Value.null) = true))]
      rw [if_neg (by simp [hfs] : ¬((!fs.allowD k) = true))]
      rw [if_neg (by simp [hb] : ¬(blockAttr k = true))]
      rw [if_neg (by simp [hr] :
        ¬((k == "target_temp_low" || k == "target_temp_high") = true))]
      rw [hsvc]
      cases hg : getIds k with
      | nil => exact absurd hg hid
      | cons x xs =>
        exact ⟨{ service := svc, kwargs := [(k, v)], entity_ids := x :: xs },
          List.mem_cons_self _ _, rfl⟩
    · have IH := fun trp' => ih trp' k v svc htl hv hfs hb hr hsvc hid
      simp only [genLoop]
      repeat' split
      all_goals first
        | exact IH _
        | (obtain ⟨c, hc, hce⟩ := IH _
           exact ⟨c, List.mem_cons_of_mem _ hc, hce⟩)

/-- With the effective data ordering mode `off`, every call emitted by the
generation loop under the wake-up blocker carries a setpoint attribute only
when it is the injected minimum temperature. -/
theorem genLoop_wakeup (getIds : String → List String) (cfg : GroupCfg)
    (fs : FilterState) (D : Data)
    (hmode : pyDictGet D "hvac_mode" = Value.s "off") :
    ∀ (l : List (String × Value)) (trp : Bool),
      (cfg.min_temp_off = true → ∀ p ∈ l, p.1 = "temperature" →
        p.2 = Value.n cfg.attr_min_temp) →
      ∀ c ∈ genLoop getIds (block_wakeup_calls cfg D) fs D l trp,
        ∀ q ∈ c.kwargs, q.1 ∈ setpointAttrKeys →
          cfg.min_temp_off = true ∧ q.1 = "temperature" ∧
            q.2 = Value.n cfg.attr_min_temp := by
  intro l
  induction l with
  | nil =>
    intro trp _ c hc
    exact absurd hc (List.not_mem_nil _)
  | cons hd tl ih =>
    intro trp hl c hc
    obtain ⟨attr, v⟩ := hd
    have hltl : cfg.min_temp_off = true → ∀ p ∈ tl, p.1 = "temperature" →
        p.2 = Value.n cfg.attr_min_temp :=
      fun hm p hp => hl hm p (List.mem_cons_of_mem _ hp)
    simp only [genLoop] at hc
    by_cases h1 : (v == Value.null) = true
    · rw [if_pos h1] at hc
      exact ih trp hltl c hc
    · rw [if_neg h1] at hc
      by_cases h2 : (!fs.allowD attr) = true
      · rw [if_pos h2] at hc
        exact ih trp hltl c hc
      · rw [if_neg h2] at hc
        by_cases h3 : block_wakeup_calls cfg D attr = true
        · rw [if_pos h3] at hc
          exact ih trp hltl c hc
        · rw [if_neg h3] at hc
          have hcases := block_wakeup_false_cases cfg D attr hmode
            (Bool.eq_false_iff.mpr h3)
          by_cases h4 : (attr == "target_temp_low" || attr == "target_temp_high") = true
          · exfalso
            rcases hcases with h | ⟨h, _⟩ <;> subst h <;> simp at h4
          · rw [if_neg h4] at hc
            cases hsm : ATTR_SERVICE_MAP attr with
            | none =>
              rw [hsm] at hc
              exact ih trp hltl c hc
            | some svc =>
              rw [hsm] at hc
              dsimp only at hc
              by_cases h5 : ((getIds attr).isEmpty = true)
              · rw [if_pos h5] at hc
                exact ih trp hltl c hc
              · rw [if_neg h5] at hc
                rcases List.mem_cons.mp hc with hce | hct
                · subst hce
                  intro q hq hqs
                  rw [List.mem_singleton] at hq
                  subst hq
                  rcases hcases with h | ⟨hat, hmt⟩
                  · subst h
                    simp [setpointAttrKeys] at hqs
                  · subst hat
                    exact ⟨hmt, rfl,
                      hl hmt ("temperature", v) (List.mem_cons_self _ _) rfl⟩
                · exact ih trp hltl c hct

/-- With `min_temp_off` configured and the effective data ordering `off`,
the effective data is exactly the raw data with the group minimum injected
under `temperature`. -/
theorem effective_min_temp_eq (cfg : GroupCfg) (ts : TargetState)
    (data? : Option Data)
    (hmode : pyDictGet (effective_dispatch_data cfg ts data?) "hvac_mode" =
      Value.s "off")
    (hmin : cfg.min_temp_off = true) :
    effective_dispatch_data cfg ts data? =
      dataSetKey (raw_dispatch_data ts data?) "temperature"
        (Value.n cfg.attr_min_temp) := by
  unfold effective_dispatch_data min_temp_when_off at hmode ⊢
  rw [hmin] at hmode ⊢
  simp only [Bool.not_true] at hmode ⊢
  rw [if_neg (by simp : ¬(false = true))] at hmode ⊢
  by_cases hc : (pyDictGet (raw_dispatch_data ts data?) "hvac_mode" ==
      Value.s "off") = true
  · rw [if_pos hc]
  · rw [if_neg hc] at hmode ⊢
    exact absurd (beq_iff_eq.mpr hmode) hc

/-- **C5**: with the effective dispatch data carrying `hvac_mode = off`,
no generated call carries a setpoint attribute — except the injected
minimum-temperature command, which is emitted when `min_temp_off` is
configured, the filter admits `temperature`, and the entity selection for
`temperature` is non-empty. -/
theorem C5_wakeup_safety (getIds : String → List String) (cfg : GroupCfg)
    (ts : TargetState) (fs : FilterState) (data? : Option Data)
    (hmode : pyDictGet (effective_dispatch_data cfg ts data?) "hvac_mode" =
      Value.s "off") :
    (∀ c ∈ generate_calls_from_dict getIds (block_wakeup_calls cfg) cfg ts data? fs,
      ∀ q ∈ c.kwargs, q.1 ∈ setpointAttrKeys →
        cfg.min_temp_off = true ∧ q.1 = "temperature" ∧
          q.2 = Value.n cfg.attr_min_temp) ∧
    (cfg.min_temp_off = true → fs.allowD "temperature" = true →
      getIds "temperature" ≠ [] →
      ∃ c ∈ generate_calls_from_dict getIds (block_wakeup_calls cfg) cfg ts data? fs,
        c = { service := "set_temperature",
              kwargs := [("temperature", Value.n cfg.attr_min_temp)],
              entity_ids := getIds "temperature" }) := by
  constructor
  · intro c hc q hq hqs
    simp only [generate_calls_from_dict] at hc
    refine genLoop_wakeup getIds cfg fs _ hmode _ false ?_ c hc q hq hqs
    intro hm p hp hpt
    rw [effective_min_temp_eq cfg ts data? hmode hm] at hp
    exact dataSetKey_mem_val p hp hpt
  · intro hmin hfs hids
    have heq := effective_min_temp_eq cfg ts data? hmode hmin
    have hmem : ("temperature", Value.n cfg.attr_min_temp) ∈
        effective_dispatch_data cfg ts data? := by
      rw [heq]
      exact dataSetKey_self_mem _ _ _
    simp only [generate_calls_from_dict]
    exact genLoop_emits getIds _ fs _ _ false "temperature"
      (Value.n cfg.attr_min_temp) "set_temperature" hmem
      (fun h => Value.noConfusion h) hfs
      (block_wakeup_temp_min cfg _ hmin) rfl rfl hids

/-- Witness for `C5_wakeup_safety`: dispatching `{hvac_mode: off}` with
`min_temp_off` configured and group minimum `7`. -/
theorem C5_wakeup_safety_witness :
    (∀ c ∈ generate_calls_from_dict (fun _ => ["climate.a"])
        (block_wakeup_calls { min_temp_off := true })
        { min_temp_off := true } {} (some [("hvac_mode", Value.s "off")]) {},
      ∀ q ∈ c.kwargs, q.1 ∈ setpointAttrKeys →
        GroupCfg.min_temp_off { min_temp_off := true } = true ∧
          q.1 = "temperature" ∧
          q.2 = Value.n (GroupCfg.attr_min_temp { min_temp_off := true })) ∧
    (GroupCfg.min_temp_off { min_temp_off := true } = true →
      FilterState.allowD {} "temperature" = true →
      (fun (_ : String) => ["climate.a"]) "temperature" ≠ [] →
      ∃ c ∈ generate_calls_from_dict (fun _ => ["climate.a"])
          (block_wakeup_calls { min_temp_off := true })
          { min_temp_off := true } {} (some [("hvac_mode", Value.s "off")]) {},
        c = { service := "set_temperature",
              kwargs := [("temperature",
                Value.n (GroupCfg.attr_min_temp { min_temp_off := true }))],
              entity_ids := (fun (_ : String) => ["climate.a"]) "temperature" }) :=
  C5_wakeup_safety (fun _ => ["climate.a"]) { min_temp_off := true } {} {}
    (some [("hvac_mode", Value.s "off")]) (by decide)

/-- A generated call carrying exactly the low/high range pair. -/
def isRangeCall (c : Call) : Bool :=
  decide (c.kwargs.map Prod.fst = ["target_temp_low", "target_temp_high"])

/-- Inversion for `genLoop` membership: every emitted call is either a
single-attribute call for a non-range attribute entry of the iterated list,
or the combined range call. -/
theorem genLoop_mem_inv (getIds : String → List String) (blockAttr : String → Bool)
    (fs : FilterState) (D : Data) :
    ∀ (l : List (String × Value)) (trp : Bool) (c : Call),
      c ∈ genLoop getIds blockAttr fs D l trp →
      (∃ attr v svc, (attr, v) ∈ l ∧
        (attr == "target_temp_low" || attr == "target_temp_high") = false ∧
        ATTR_SERVICE_MAP attr = some svc ∧
        c = { service := svc, kwargs := [(attr, v)], entity_ids := getIds attr }) ∨
      (∃ attr v, (attr, v) ∈ l ∧
        (attr == "target_temp_low" || attr == "target_temp_high") = true ∧
        c = { service := "set_temperature",
              kwargs := [("target_temp_low", pyDictGet D "target_temp_low"),
                         ("target_temp_high", pyDictGet D "target_temp_high")],
              entity_ids := getIds attr }) := by
  intro l
  induction l with
  | nil =>
    intro trp c hc
    exact absurd hc (List.not_mem_nil _)
  | cons hd tl ih =>
    intro trp c hc
    obtain ⟨attr, v⟩ := hd
    have weaken :
        ((∃ a w svc, (a, w) ∈ tl ∧
            (a == "target_temp_low" || a == "target_temp_high") = false ∧
            ATTR_SERVICE_MAP a = some svc ∧
            c = { service := svc, kwargs := [(a, w)], entity_ids := getIds a }) ∨
         (∃ a w, (a, w) ∈ tl ∧
            (a == "target_temp_low" || a == "target_temp_high") = true ∧
            c = { service := "set_temperature",
                  kwargs := [("target_temp_low", pyDictGet D "target_temp_low"),
                             ("target_temp_high", pyDictGet D "target_temp_high")],
                  entity_ids := getIds a })) →
        ((∃ a w svc, (a, w) ∈ (attr, v) :: tl ∧
            (a == "target_temp_low" || a == "target_temp_high") = false ∧
            ATTR_SERVICE_MAP a = some svc ∧
            c = { service := svc, kwargs := [(a, w)], entity_ids := getIds a }) ∨
         (∃ a w, (a, w) ∈ (attr, v) :: tl ∧
            (a == "target_temp_low" || a == "target_temp_high") = true ∧
            c = { service := "set_temperature",
                  kwargs := [("target_temp_low", pyDictGet D "target_temp_low"),
                             ("target_temp_high", pyDictGet D "target_temp_high")],
                  entity_ids := getIds a })) := by
      intro h
      rcases h with ⟨a, w, svc, hm, hx1, hx2, hx3⟩ | ⟨a, w, hm, hx1, hx2⟩
      · exact Or.inl ⟨a, w, svc, List.mem_cons_of_mem _ hm, hx1, hx2, hx3⟩
      · exact Or.inr ⟨a, w, List.mem_cons_of_mem _ hm, hx1, hx2⟩
    simp only [genLoop] at hc
    by_cases h1 : (v == Value.null) = true
    · rw [if_pos h1] at hc
      exact weaken (ih trp c hc)
    · rw [if_neg h1] at hc
      by_cases h2 : (!fs.allowD attr) = true
      · rw [if_pos h2] at hc
        exact weaken (ih trp c hc)
      · rw [if_neg h2] at hc
        by_cases h3 : blockAttr attr = true
        · rw [if_pos h3] at hc
          exact weaken (ih trp c hc)
        · rw [if_neg h3] at hc
          by_cases h4 : (attr == "target_temp_low" || attr == "target_temp_high") = true
          · rw [if_pos h4] at hc
            by_cases h5 : trp = true
            · rw [if_pos h5] at hc
              exact weaken (ih trp c hc)
            · rw [if_neg h5] at hc
              by_cases h6 : ((pyDictGet D "target_temp_low" != Value.null) &&
                  (pyDictGet D "target_temp_high" != Value.null)) = true
              · rw [if_pos h6] at hc
                by_cases h7 : ((getIds attr).isEmpty = true)
                · rw [if_pos h7] at hc
                  exact weaken (ih trp c hc)
                · rw [if_neg h7] at hc
                  rcases List.mem_cons.mp hc with hce | hct
                  · exact Or.inr ⟨attr, v, List.mem_cons_self _ _, h4, hce⟩
                  · exact weaken (ih true c hct)
              · rw [if_neg h6] at hc
                exact weaken (ih trp c hc)
          · rw [if_neg h4] at hc
            cases hsm : ATTR_SERVICE_MAP attr with
            | none =>
              rw [hsm] at hc
              exact weaken (ih trp c hc)
            | some svc =>
              rw [hsm] at hc
              dsimp only at hc
              by_cases h7 : ((getIds attr).isEmpty = true)
              · rw [if_pos h7] at hc
                exact weaken (ih trp c hc)
              · rw [if_neg h7] at hc
                rcases List.mem_cons.mp hc with hce | hct
                · exact Or.inl ⟨attr, v, svc, List.mem_cons_self _ _,
                    Bool.eq_false_iff.mpr h4, hsm, hce⟩
                · exact weaken (ih trp c hct)

/-- Once `temp_range_processed` is set, the generation loop emits no further
range call. -/
theorem genLoop_trp_no_range (getIds : String → List String)
    (blockAttr : String → Bool) (fs : FilterState) (D : Data) :
    ∀ l, (genLoop getIds blockAttr fs D l true).countP isRangeCall = 0 := by
  intro l
  induction l with
  | nil => rfl
  | cons hd tl ih =>
    obtain ⟨attr, v⟩ := hd
    simp only [genLoop, eq_self_iff_true, if_true]
    repeat' split
    all_goals first
      | exact ih
      | (rw [List.countP_cons]
         simp [isRangeCall, ih])

/-- With both range setpoints present (non-null) in the full data, both
admitted by the filter and the blocker, and both selecting a non-empty
entity list, the loop starting with a clear `temp_range_processed` flag
emits exactly one range call as soon as the iterated suffix still contains
a range entry with a non-null value. -/
theorem genLoop_range_count_one (getIds : String → List String)
    (blockAttr : String → Bool) (fs : FilterState) (D : Data)
    (hl : pyDictGet D "target_temp_low" ≠ Value.null)
    (hh : pyDictGet D "target_temp_high" ≠ Value.null)
    (hfl : fs.allowD "target_temp_low" = true)
    (hfh : fs.allowD "target_temp_high" = true)
    (hbl : blockAttr "target_temp_low" = false)
    (hbh : blockAttr "target_temp_high" = false)
    (hil : getIds "target_temp_low" ≠ []) (hih : getIds "target_temp_high" ≠ []) :
    ∀ l, (∃ p ∈ l, (p.1 = "target_temp_low" ∨ p.1 = "target_temp_high") ∧
        p.2 ≠ Value.null) →
      (genLoop getIds blockAttr fs D l false).countP isRangeCall = 1 := by
  intro l
  induction l with
  | nil =>
    rintro ⟨p, hp, _⟩
    exact absurd hp (List.not_mem_nil _)
  | cons hd tl ih =>
    rintro ⟨p, hp, hpk, hpn⟩
    obtain ⟨attr, v⟩ := hd
    by_cases hem : ((attr = "target_temp_low" ∨ attr = "target_temp_high") ∧
        v ≠ Value.null)
    · -- the head emits the single range call
      obtain ⟨hak, hvn⟩ := hem
      simp only [genLoop]
      rw [if_neg (by simp [hvn] : ¬((v == Value.null) = true))]
      have hfa : fs.allowD attr = true := by
        rcases hak with h | h <;> rw [h] <;> assumption
      have hba : blockAttr attr = false := by
        rcases hak with h | h <;> rw [h] <;> assumption
      rw [if_neg (by simp [hfa] : ¬((!fs.allowD attr) = true))]
      rw [if_neg (by simp [hba] : ¬(blockAttr attr = true))]
      rw [if_pos (by rcases hak with h | h <;> simp [h] :
        ((attr == "target_temp_low" || attr == "target_temp_high") = true))]
      rw [if_neg (by simp : ¬(false = true))]
      rw [if_pos (by simp [bne_iff_ne, hl, hh] :
        ((pyDictGet D "target_temp_low" != Value.null) &&
          (pyDictGet D "target_temp_high" != Value.null)) = true)]
      have hia : getIds attr ≠ [] := by
        rcases hak with h | h <;> rw [h] <;> assumption
      cases hg : getIds attr with
      | nil => exact absurd hg hia
      | cons x xs =>
        simp only [List.isEmpty_cons]
        rw [if_neg (by simp : ¬(false = true))]
        rw [List.countP_cons]
        rw [genLoop_trp_no_range]
        simp [isRangeCall]
    · -- the head does not emit a range call; the witness sits in the tail
      have hptl : p ∈ tl := by
        rcases List.mem_cons.mp hp with he | h
        · exfalso
          apply hem
          rw [he] at hpk hpn
          exact ⟨hpk, hpn⟩
        · exact h
      have IH := ih ⟨p, hptl, hpk, hpn⟩
      simp only [genLoop]
      by_cases h1 : (v == Value.null) = true
      · rw [if_pos h1]; exact IH
      · rw [if_neg h1]
        by_cases h2 : (!fs.allowD attr) = true
        · rw [if_pos h2]; exact IH
        · rw [if_neg h2]
          by_cases h3 : blockAttr attr = true
          · rw [if_pos h3]; exact IH
          · rw [if_neg h3]
            by_cases h4 : (attr == "target_temp_low" || attr == "target_temp_high") = true
            · exfalso
              apply hem
              constructor
              · rw [Bool.or_eq_true] at h4
                rcases h4 with h | h
                · exact Or.inl (beq_iff_eq.mp h)
                · exact Or.inr (beq_iff_eq.mp h)
              · intro hveq
                rw [hveq] at h1
                exact h1 rfl
            · rw [if_neg h4]
              cases hsm : ATTR_SERVICE_MAP attr with
              | none => exact IH
              | some svc =>
                dsimp only
                by_cases h5 : ((getIds attr).isEmpty = true)
                · rw [if_pos h5]; exact IH
                · rw [if_neg h5]
                  rw [List.countP_cons]
                  have : isRangeCall
                      { service := svc, kwargs := [(attr, v)],
                        entity_ids := getIds attr } = false := by
                    simp [isRangeCall]
                  rw [this, IH]
                  simp

theorem dataGet_mem {d : Data} {k : String} {v : Value}
    (h : dataGet d k = some v) : (k, v) ∈ d := by
  unfold dataGet at h
  cases hf : d.find? (fun p => p.1 == k) with
  | none =>
    rw [hf] at h
    exact Option.noConfusion h
  | some q =>
    rw [hf] at h
    obtain ⟨q1, q2⟩ := q
    have hp := List.find?_some hf
    have hm := List.mem_of_find?_eq_some hf
    simp only [Option.map_some'] at h
    rw [Option.some.injEq] at h
    dsimp only at h hp
    rw [beq_iff_eq] at hp
    rw [← hp, ← h]
    exact hm

/-- **C6**: when both range setpoints are present (non-absent) in the
effective dispatched data, admitted by the filter and the attribute
blocker, and select members, call generation emits exactly one combined
`set_temperature` call carrying both values, and no other generated call
carries either range setpoint. -/
theorem C6_range_atomicity (getIds : String → List String)
    (blockAttr : Data → String → Bool) (cfg : GroupCfg) (ts : TargetState)
    (data? : Option Data) (fs : FilterState) (vl vh : Value)
    (hl : dataGet (effective_dispatch_data cfg ts data?) "target_temp_low" = some vl)
    (hvl : vl ≠ Value.null)
    (hh : dataGet (effective_dispatch_data cfg ts data?) "target_temp_high" = some vh)
    (hvh : vh ≠ Value.null)
    (hfl : fs.allowD "target_temp_low" = true)
    (hfh : fs.allowD "target_temp_high" = true)
    (hbl : blockAttr (effective_dispatch_data cfg ts data?) "target_temp_low" = false)
    (hbh : blockAttr (effective_dispatch_data cfg ts data?) "target_temp_high" = false)
    (hil : getIds "target_temp_low" ≠ []) (hih : getIds "target_temp_high" ≠ []) :
    (generate_calls_from_dict getIds blockAttr cfg ts data? fs).countP isRangeCall = 1 ∧
    (∀ c ∈ generate_calls_from_dict getIds blockAttr cfg ts data? fs,
      isRangeCall c = true →
        c.service = "set_temperature" ∧
        c.kwargs = [("target_temp_low", vl), ("target_temp_high", vh)]) ∧
    (∀ c ∈ generate_calls_from_dict getIds blockAttr cfg ts data? fs,
      isRangeCall c = false →
        ∀ q ∈ c.kwargs, q.1 ≠ "target_temp_low" ∧ q.1 ≠ "target_temp_high") := by
  have hpl : pyDictGet (effective_dispatch_data cfg ts data?) "target_temp_low" = vl := by
    unfold pyDictGet
    rw [hl]
    rfl
  have hph : pyDictGet (effective_dispatch_data cfg ts data?) "target_temp_high" = vh := by
    unfold pyDictGet
    rw [hh]
    rfl
  refine ⟨?_, ?_, ?_⟩
  · simp only [generate_calls_from_dict]
    apply genLoop_range_count_one getIds _ fs _
      (by rw [hpl]; exact hvl) (by rw [hph]; exact hvh) hfl hfh hbl hbh hil hih
    exact ⟨("target_temp_low", vl), dataGet_mem hl, Or.inl rfl, hvl⟩
  · intro c hc hr
    simp only [generate_calls_from_dict] at hc
    rcases genLoop_mem_inv getIds _ fs _ _ false c hc with
      ⟨a, w, svc, _, _, _, hce⟩ | ⟨a, w, _, _, hce⟩
    · exfalso
      subst hce
      simp [isRangeCall] at hr
    · subst hce
      refine ⟨rfl, ?_⟩
      rw [hpl, hph]
  · intro c hc hr q hq
    simp only [generate_calls_from_dict] at hc
    rcases genLoop_mem_inv getIds _ fs _ _ false c hc with
      ⟨a, w, svc, _, hrange, _, hce⟩ | ⟨a, w, _, _, hce⟩
    · subst hce
      rw [List.mem_singleton] at hq
      subst hq
      constructor
      · intro hak
        dsimp only at hak
        rw [hak] at hrange
        simp at hrange
      · intro hak
        dsimp only at hak
        rw [hak] at hrange
        simp at hrange
    · exfalso
      subst hce
      simp [isRangeCall] at hr

/-- Dispatch data for the C6 witness. -/
def dataC6 : Data :=
  [("target_temp_low", Value.n 19), ("target_temp_high", Value.n 23)]

/-- Witness for `C6_range_atomicity`: dispatching
`{target_temp_low: 19, target_temp_high: 23}` to one member. -/
theorem C6_range_atomicity_witness :
    (generate_calls_from_dict (fun _ => ["climate.a"]) (fun _ _ => false)
      {} {} (some dataC6) {}).countP isRangeCall = 1 ∧
    (∀ c ∈ generate_calls_from_dict (fun _ => ["climate.a"]) (fun _ _ => false)
        {} {} (some dataC6) {},
      isRangeCall c = true →
        c.service = "set_temperature" ∧
        c.kwargs = [("target_temp_low", Value.n 19), ("target_temp_high", Value.n 23)]) ∧
    (∀ c ∈ generate_calls_from_dict (fun _ => ["climate.a"]) (fun _ _ => false)
        {} {} (some dataC6) {},
      isRangeCall c = false →
        ∀ q ∈ c.kwargs, q.1 ≠ "target_temp_low" ∧ q.1 ≠ "target_temp_high") :=
  C6_range_atomicity (fun _ => ["climate.a"]) (fun _ _ => false) {} {}
    (some dataC6) {} (Value.n 19) (Value.n 23) (by decide) (by decide)
    (by decide) (by decide) rfl rfl rfl rfl (by decide) (by decide)

/-- **C2 (amended)**: when the event's origin is a climate `call_service`
carrying one of this system's context ids (and the sync/startup/blocking
gates pass), `resync` performs at most one action — folding the accepted
side effects into the target state via the sync-mode state manager — and
never schedules enforcement and never raises.  An attribute of the delta is
accepted exactly when it was absent from the issued service data *and*
either the recorded batch master is empty (unknown) or the reporting entity
equals the master; attributes present in the service data (clean or dirty
echoes) are never written. -/
theorem C2_echo_classification (cfg : GroupCfg) (ts : TargetState)
    (fs : FilterState) (inp : ResyncInput) (oe : OriginEvent)
    (ho : inp.origin = some oe)
    (het : oe.event_type = "call_service")
    (hdm : oe.domain = "climate")
    (hctx : oe.context_id ∈ trusted_context_ids)
    (hmode : inp.sync_mode ≠ SyncMode.standard)
    (hsp : inp.startup_phase = false)
    (hb : cfg.blocking_mode = false)
    (hcd : inp.change_dict ≠ [])
    (hwc : inp.event_context_id ≠ "window_control") :
    resync cfg ts fs inp =
      (if (echoAccepted oe inp).isEmpty then []
       else [ResyncAction.stateUpdate inp.change_entity_id (echoAccepted oe inp)]) ∧
    (∀ a v, ((a, v) ∈ echoAccepted oe inp ↔
      ((a, v) ∈ inp.change_dict ∧ dataGet oe.service_data a = none ∧
        (echoMaster oe = "" ∨ inp.change_entity_id = some (echoMaster oe))))) ∧
    ResyncAction.enforce ∉ resync cfg ts fs inp ∧
    ResyncAction.raiseError ∉ resync cfg ts fs inp := by
  have heq : resync cfg ts fs inp =
      (if (echoAccepted oe inp).isEmpty then []
       else [ResyncAction.stateUpdate inp.change_entity_id (echoAccepted oe inp)]) := by
    unfold resync
    rw [if_neg (by simp [hmode] : ¬((inp.sync_mode == SyncMode.standard) = true))]
    rw [if_neg (by simp [hsp] : ¬(inp.startup_phase = true))]
    rw [if_neg (by simp [hb] : ¬(cfg.blocking_mode = true))]
    rw [if_neg (by simp [List.isEmpty_iff, hcd] : ¬(inp.change_dict.isEmpty = true))]
    rw [ho]
    try dsimp only
    rw [if_neg (by simp [hwc] : ¬((inp.event_context_id == "window_control") = true))]
    rw [if_pos (by simp [het, hdm, hctx])]
  refine ⟨heq, ?_, ?_, ?_⟩
  · intro a v
    simp only [echoAccepted, List.mem_filter]
    constructor
    · rintro ⟨hm, hp⟩
      simp only [Bool.and_eq_true, Bool.not_eq_true'] at hp
      obtain ⟨hk, hmst⟩ := hp
      refine ⟨hm, ?_, ?_⟩
      · unfold dataHasKey at hk
        try dsimp only at hk
        cases h : dataGet oe.service_data a with
        | none => rfl
        | some w =>
          rw [h] at hk
          exact Bool.noConfusion hk
      · by_cases hm0 : echoMaster oe = ""
        · exact Or.inl hm0
        · right
          rcases Bool.and_eq_false_iff.mp hmst with hx | hy
          · exact absurd (by simp [bne_iff_ne, hm0] : (echoMaster oe != "") = true)
              (by rw [hx]; exact Bool.noConfusion)
          · exact not_not.mp (of_decide_eq_false hy)
    · rintro ⟨hm, hnone, hdisj⟩
      refine ⟨hm, ?_⟩
      simp only [Bool.and_eq_true, Bool.not_eq_true']
      constructor
      · unfold dataHasKey
        try dsimp only
        rw [hnone]
        rfl
      · rcases hdisj with h0 | hmeq
        · have hbne : (echoMaster oe != "") = false := by simp [h0]
          rw [hbne, Bool.false_and]
        · have hdec : decide (inp.change_entity_id ≠ some (echoMaster oe)) = false := by
            simp [hmeq]
          rw [hdec, Bool.and_false]
  · rw [heq]
    split <;> simp
  · rw [heq]
    split <;> simp

/-- The origin event of the C2 counterexample: a trusted sync-mode batch
whose recorded parent id `"1700000000.0|"` carries an *empty* master entity
(exactly what `_get_parent_id` produces while `target_state.last_entity` is
unset). -/
def oeC2 : OriginEvent :=
  { event_type := "call_service", domain := "climate", context_id := "sync_mode",
    parent_id := some "1700000000.0|",
    service_data := [("entity_id", Value.ids ["climate.a", "climate.b"]),
                     ("preset_mode", Value.s "eco")] }

/-- The resync input of the C2 counterexample: member `climate.b` reports a
`fan_mode` side effect that was not part of the issued service data. -/
def inpC2 : ResyncInput :=
  { sync_mode := SyncMode.lock, startup_phase := false,
    event_context_id := "sync_mode", origin := some oeC2,
    change_entity_id := some "climate.b",
    change_dict := [("fan_mode", Value.s "medium")] }

/-- **C2 (counterexample)**: the claim says a side-effect attribute is
folded into the target state *iff* the reporting entity equals the recorded
batch master.  With the recorded master empty (`"1700000000.0|"`) and
reporter `climate.b`, the reporter differs from the recorded master, yet
the code accepts and folds the side effect (the master guard is only
applied `if master_entity_id` is truthy). -/
theorem C2_counterexample :
    resync {} {} {} inpC2 =
      [ResyncAction.stateUpdate (some "climate.b") [("fan_mode", Value.s "medium")]] ∧
    echoMaster oeC2 = "" ∧
    inpC2.change_entity_id ≠ some (echoMaster oeC2) := by
  decide

/-- Witness for `C2_echo_classification` at the concrete input `inpC2`. -/
theorem C2_echo_classification_witness :
    resync {} {} {} inpC2 =
      (if (echoAccepted oeC2 inpC2).isEmpty then []
       else [ResyncAction.stateUpdate inpC2.change_entity_id (echoAccepted oeC2 inpC2)]) ∧
    (∀ a v, ((a, v) ∈ echoAccepted oeC2 inpC2 ↔
      ((a, v) ∈ inpC2.change_dict ∧ dataGet oeC2.service_data a = none ∧
        (echoMaster oeC2 = "" ∨ inpC2.change_entity_id = some (echoMaster oeC2))))) ∧
    ResyncAction.enforce ∉ resync {} {} {} inpC2 ∧
    ResyncAction.raiseError ∉ resync {} {} {} inpC2 :=
  C2_echo_classification {} {} {} inpC2 oeC2 rfl rfl rfl (by decide)
    (by decide) rfl rfl (by decide) (by decide)

/-- Firing any timer from a state with no pending open timer issues no off
command and preserves the invariant (the close handler only restores or
does nothing; a cancelled timer is a no-op). -/
theorem stepFire_no_off (env : WEnv) (s : WCState)
    (hs : noOpenTimers s = true) (w : String) (t : Rat)
    (live : String → Bool) :
    noOpenTimers (stepFire env s w t live).1 = true ∧
    ∀ c ∈ (stepFire env s w t live).2, c.isOff = false := by
  unfold stepFire
  cases hf : s.timers.find? (fun e => e.1 == w && e.2.2 == t) with
  | none => exact ⟨hs, fun c hc => absurd hc (List.not_mem_nil _)⟩
  | some q =>
    obtain ⟨w', kind, t'⟩ := q
    have hmem := List.mem_of_find?_eq_some hf
    have hk : kind ≠ TimerKind.tOpen := by
      unfold noOpenTimers at hs
      have hall := List.all_eq_true.mp hs _ hmem
      simp only [bne_iff_ne, ne_eq, decide_eq_true_eq] at hall
      exact hall
    have hs' : noOpenTimers ⟨s.timers.filter (fun e => e.1 != w)⟩ = true := by
      unfold noOpenTimers at hs ⊢
      rw [List.all_eq_true] at hs ⊢
      intro e he
      exact hs e (List.mem_of_mem_filter he)
    cases kind with
    | tOpen => exact absurd rfl hk
    | tClose =>
      try dsimp only
      repeat' split
      all_goals refine ⟨hs', ?_⟩
      all_goals intro c hc
      all_goals first
        | exact absurd hc (List.not_mem_nil _)
        | (rw [List.mem_singleton] at hc
           subst hc
           rfl)

/-- From a state with no pending open timer, a trace of fire events never
issues an off command. -/
theorem runTrace_fires_no_off (env : WEnv) :
    ∀ (evs : List WEvent), (∀ e ∈ evs, e.isFire = true) →
      ∀ s, noOpenTimers s = true →
        ∀ c ∈ (runTrace env s evs).2, c.isOff = false := by
  intro evs
  induction evs with
  | nil =>
    intro _ s _ c hc
    exact absurd hc (List.not_mem_nil _)
  | cons ev rest ih =>
    intro hall s hs c hc
    cases ev with
    | sensor w st t => exact Bool.noConfusion (hall _ (List.mem_cons_self _ _))
    | fire w t live =>
      simp only [runTrace] at hc
      obtain ⟨hno, hcm⟩ := stepFire_no_off env s hs w t live
      rcases List.mem_append.mp hc with h | h
      · exact hcm c h
      · exact ih (fun e he => hall e (List.mem_cons_of_mem _ he)) _ hno c h

/-- Fire events are no-ops from the empty timer state. -/
theorem runTrace_nil_state (env : WEnv) :
    ∀ evs, (∀ e ∈ evs, e.isFire = true) →
      runTrace env ⟨[]⟩ evs = (⟨[]⟩, []) := by
  intro evs
  induction evs with
  | nil => intro _; rfl
  | cons ev rest ih =>
    intro hall
    cases ev with
    | sensor w st t => exact Bool.noConfusion (hall _ (List.mem_cons_self _ _))
    | fire w t live =>
      have hstep : stepFire env ⟨[]⟩ w t live = (⟨[]⟩, []) := rfl
      simp only [runTrace, hstep]
      rw [ih (fun e he => hall e (List.mem_cons_of_mem _ he))]
      rfl

/-- **C9**: in area-based window control, a sensor reporting open and then
closed while the open timer is still pending (the close event precedes the
open timer's firing) never leads to an off command — the close listener
cancels the pending open timer — while a sensor held open until its timer
fires leads to exactly one off command, addressed to the thermostats of
that sensor's area; subsequent fire events add nothing. -/
theorem C9_window_timers (env : WEnv) (w : String) (t1 t2 : Rat) (a : String)
    (live : String → Bool) (fires : List WEvent)
    (hf : ∀ e ∈ fires, e.isFire = true)
    (ha : env.areaOf w = some a)
    (hth : thermostatsInArea env a ≠ []) :
    (∀ c ∈ (runTrace env ⟨[]⟩
        (WEvent.sensor w "on" t1 :: WEvent.sensor w "off" t2 :: fires)).2,
      c.isOff = false) ∧
    (runTrace env ⟨[]⟩
        (WEvent.sensor w "on" t1 ::
         WEvent.fire w (t1 + env.window_open_delay) live :: fires)).2 =
      [WCommand.off (thermostatsInArea env a)] := by
  have hs1 : stepSensor env ⟨[]⟩ w "on" t1 =
      ⟨[(w, TimerKind.tOpen, t1 + env.window_open_delay)]⟩ := rfl
  have hs2 : stepSensor env ⟨[(w, TimerKind.tOpen, t1 + env.window_open_delay)]⟩
      w "off" t2 = ⟨[(w, TimerKind.tClose, t2 + env.close_delay)]⟩ := by
    unfold stepSensor
    simp [List.filter_cons, bne_self_eq_false]
  constructor
  · intro c hc
    simp only [runTrace, hs1, hs2] at hc
    refine runTrace_fires_no_off env fires hf _ ?_ c hc
    simp [noOpenTimers]
  · have hfind : List.find? (fun e => e.1 == w && e.2.2 == (t1 + env.window_open_delay))
        [(w, TimerKind.tOpen, t1 + env.window_open_delay)] =
        some (w, TimerKind.tOpen, t1 + env.window_open_delay) := by
      simp [List.find?]
    have hfil : List.filter (fun e => e.1 != w)
        [(w, TimerKind.tOpen, t1 + env.window_open_delay)] = ([] : List (String × TimerKind × Rat)) := by
      simp [List.filter_cons, bne_self_eq_false]
    have hstep : stepFire env ⟨[(w, TimerKind.tOpen, t1 + env.window_open_delay)]⟩ w
        (t1 + env.window_open_delay) live =
        (⟨[]⟩, [WCommand.off (thermostatsInArea env a)]) := by
      unfold stepFire
      rw [hfind]
      try dsimp only
      rw [ha]
      try dsimp only
      cases hg : thermostatsInArea env a with
      | nil => exact absurd hg hth
      | cons x xs =>
        rw [hfil]
        simp
    simp only [runTrace, hs1, hstep]
    rw [runTrace_nil_state env fires hf]
    simp

/-- Environment for the C9 witness: one window sensor and one thermostat in
area `living_room`. -/
def envC9 : WEnv :=
  { window_sensors := ["binary_sensor.w1"],
    climate_entity_ids := ["climate.a", "climate.b"],
    areaOf := fun e =>
      if e == "binary_sensor.w1" || e == "climate.a" then some "living_room"
      else none,
    window_open_delay := 15, close_delay := 30,
    restore_data := [("hvac_mode", Value.s "heat")] }

/-- Witness for `C9_window_timers` on the concrete area environment. -/
theorem C9_window_timers_witness :
    (∀ c ∈ (runTrace envC9 ⟨[]⟩
        (WEvent.sensor "binary_sensor.w1" "on" 0 ::
         WEvent.sensor "binary_sensor.w1" "off" 5 :: [])).2,
      c.isOff = false) ∧
    (runTrace envC9 ⟨[]⟩
        (WEvent.sensor "binary_sensor.w1" "on" 0 ::
         WEvent.fire "binary_sensor.w1" (0 + envC9.window_open_delay)
           (fun _ => false) :: [])).2 =
      [WCommand.off (thermostatsInArea envC9 "living_room")] :=
  C9_window_timers envC9 "binary_sensor.w1" 0 5 "living_room" (fun _ => false)
    [] (by intro e he; exact absurd he (List.not_mem_nil e)) rfl (by decide)

end ClimateGroupHelper
